import Mathlib

/-!
Shallow embedding of `api.py` from the bft-solver repository.

The source is a FastAPI application: a Pydantic data model (Order, the five
Liquidity variants, Auction, Trade, Interaction, Call, Flashloan, Solution,
SolutionResponse) together with a single route `solve` that parses an Auction
and returns a placeholder SolutionResponse.

JSON values are modelled by the inductive `Json` (numbers as exact rationals,
which faithfully represent every integer and float payload the model can
carry).  Pydantic parsing of each model class becomes a function
`Json → Option T`; serialization (`model_dump` with aliases, as the FastAPI
response layer performs it) becomes a function `T → Json`.  The two
string-pattern constraints of the source,

  Address     = `^0x[0-9a-fA-F]\x7b40\x7d$`
  TokenAmount = `^\d+$`

become the boolean validators `addressValid` and `tokenAmountValid`.
-/

/-- JSON values.  Objects keep their fields as an ordered association list;
map equality up to ordering is treated at the model level. -/
inductive Json where
  | str : String → Json
  | num : Rat → Json
  | bool : Bool → Json
  | null : Json
  | arr : List Json → Json
  | obj : List (String × Json) → Json

/-- First binding of a key in a JSON object, as Pydantic sees the field. -/
def jlookup : List (String × Json) → String → Option Json
  | [], _ => none
  | (k, v) :: rest, key => if k = key then some v else jlookup rest key

/-- Hexadecimal character class `[0-9a-fA-F]` of the Address pattern. -/
def isHexDigitChar (c : Char) : Bool :=
  (('0' ≤ c) && (c ≤ '9')) || (('a' ≤ c) && (c ≤ 'f')) || (('A' ≤ c) && (c ≤ 'F'))

/-- The source constraint `Address = Annotated[str, StringConstraints(pattern=r"^0x[0-9a-fA-F]\x7b40\x7d$")]`:
the whole string is `0x` followed by exactly 40 hexadecimal characters. -/
def addressValid (s : String) : Bool :=
  match s.data with
  | c0 :: c1 :: rest => c0 == '0' && c1 == 'x' && rest.length == 40 && rest.all isHexDigitChar
  | _ => false

/-- The source constraint `TokenAmount = Annotated[str, StringConstraints(pattern=r"^\d+$")]`:
a non-empty string of decimal digits. -/
def tokenAmountValid (s : String) : Bool :=
  !s.data.isEmpty && s.data.all Char.isDigit

-- ------------------------------------------------------------------
-- Primitive field parsers (Pydantic scalar ingestion from JSON)
-- ------------------------------------------------------------------

/-- Pydantic `str` field: accepts exactly JSON strings. -/
def parseStrJ : Json → Option String
  | .str s => some s
  | _ => none

/-- Pydantic `bool` field: accepts exactly JSON booleans. -/
def parseBoolJ : Json → Option Bool
  | .bool b => some b
  | _ => none

/-- Pydantic `int` field: accepts a JSON number with no fractional part. -/
def parseIntJ : Json → Option Int
  | .num q => if q.den = 1 then some q.num else none
  | _ => none

/-- Pydantic `float` field: accepts any JSON number. -/
def parseFloatJ : Json → Option Rat
  | .num q => some q
  | _ => none

/-- An `Address`-constrained string field. -/
def parseAddress : Json → Option String
  | .str s => if addressValid s then some s else none
  | _ => none

/-- A `TokenAmount`-constrained string field. -/
def parseTokenAmount : Json → Option String
  | .str s => if tokenAmountValid s then some s else none
  | _ => none

/-- Values of an `Optional[T]` field: JSON null maps to `none`. -/
def parseNullable (p : Json → Option α) : Json → Option (Option α)
  | .null => some none
  | v => (p v).map some

/-- A required field: it must be present and parse. -/
def reqField (fs : List (String × Json)) (key : String) (p : Json → Option α) : Option α :=
  match jlookup fs key with
  | some v => p v
  | none => none

/-- An `Optional[T] = None` field: absent or null yields `none`. -/
def optField (fs : List (String × Json)) (key : String) (p : Json → Option α) :
    Option (Option α) :=
  match jlookup fs key with
  | some v => parseNullable p v
  | none => some none

/-- A field with a non-null default: absent yields the default, present must parse. -/
def defField (fs : List (String × Json)) (key : String) (p : Json → Option α) (d : α) :
    Option α :=
  match jlookup fs key with
  | some v => p v
  | none => some d

/-- Parse every element of a JSON array; any element failure fails the list. -/
def parseJsonList (p : Json → Option α) : List Json → Option (List α)
  | [] => some []
  | j :: js =>
      match p j, parseJsonList p js with
      | some a, some as => some (a :: as)
      | _, _ => none

/-- A `List[T]` field. -/
def parseListWith (p : Json → Option α) : Json → Option (List α)
  | .arr js => parseJsonList p js
  | _ => none

/-- Parse every value of a JSON object; any value failure fails the map. -/
def parseJsonDict (p : Json → Option α) : List (String × Json) → Option (List (String × α))
  | [] => some []
  | (k, v) :: rest =>
      match p v, parseJsonDict p rest with
      | some a, some as => some ((k, a) :: as)
      | _, _ => none

/-- A `Dict[str, T]` field, kept as an association list. -/
def parseDictWith (p : Json → Option α) : Json → Option (List (String × α))
  | .obj fs => parseJsonDict p fs
  | _ => none

/-- A `List[Any]` field: raw JSON values pass through. -/
def parseAnyListJ : Json → Option (List Json)
  | .arr js => some js
  | _ => none

-- ------------------------------------------------------------------
-- Primitive field serializers (model_dump)
-- ------------------------------------------------------------------

/-- Serialize an optional value, `None` becoming JSON null. -/
def jsonOfOpt (f : α → Json) : Option α → Json
  | none => Json.null
  | some a => f a

/-- Serialize an `int` field. -/
def jsonOfInt (n : Int) : Json := Json.num (n : Rat)

/-- Serialize a `Dict[str, T]` field. -/
def jsonOfDict (f : α → Json) (entries : List (String × α)) : Json :=
  Json.obj (entries.map (fun kv => (kv.1, f kv.2)))

-- ------------------------------------------------------------------
-- Enums (str-valued, parsed from and dumped to their value strings)
-- ------------------------------------------------------------------

/-- Source enum `OrderKind`. -/
inductive OrderKind where
  | sell
  | buy

/-- Wire value of an `OrderKind`. -/
def OrderKind.toWire : OrderKind → String
  | .sell => "sell"
  | .buy => "buy"

/-- Parse an `OrderKind` from its wire value. -/
def OrderKind.ofWire : String → Option OrderKind
  | "sell" => some .sell
  | "buy" => some .buy
  | _ => none

/-- Source enum `OrderClass` (the field serialized under the name "class"). -/
inductive OrderClass where
  | market
  | limit

/-- Wire value of an `OrderClass`. -/
def OrderClass.toWire : OrderClass → String
  | .market => "market"
  | .limit => "limit"

/-- Parse an `OrderClass` from its wire value. -/
def OrderClass.ofWire : String → Option OrderClass
  | "market" => some .market
  | "limit" => some .limit
  | _ => none

/-- Source enum `SellTokenBalance`: erc20, internal and external. -/
inductive SellTokenBalance where
  | erc20
  | internal
  | external

/-- Wire value of a `SellTokenBalance`. -/
def SellTokenBalance.toWire : SellTokenBalance → String
  | .erc20 => "erc20"
  | .internal => "internal"
  | .external => "external"

/-- Parse a `SellTokenBalance` from its wire value. -/
def SellTokenBalance.ofWire : String → Option SellTokenBalance
  | "erc20" => some .erc20
  | "internal" => some .internal
  | "external" => some .external
  | _ => none

/-- Source enum `BuyTokenBalance`: erc20 and internal only. -/
inductive BuyTokenBalance where
  | erc20
  | internal

/-- Wire value of a `BuyTokenBalance`. -/
def BuyTokenBalance.toWire : BuyTokenBalance → String
  | .erc20 => "erc20"
  | .internal => "internal"

/-- Parse a `BuyTokenBalance` from its wire value. -/
def BuyTokenBalance.ofWire : String → Option BuyTokenBalance
  | "erc20" => some .erc20
  | "internal" => some .internal
  | _ => none

/-- Source enum `SigningScheme`. -/
inductive SigningScheme where
  | eip712
  | ethSign
  | preSign
  | eip1271

/-- Wire value of a `SigningScheme`. -/
def SigningScheme.toWire : SigningScheme → String
  | .eip712 => "eip712"
  | .ethSign => "ethSign"
  | .preSign => "preSign"
  | .eip1271 => "eip1271"

/-- Parse a `SigningScheme` from its wire value. -/
def SigningScheme.ofWire : String → Option SigningScheme
  | "eip712" => some .eip712
  | "ethSign" => some .ethSign
  | "preSign" => some .preSign
  | "eip1271" => some .eip1271
  | _ => none

/-- Parse a string-enum field through its wire-value reader. -/
def parseEnumJ (ofWire : String → Option α) : Json → Option α
  | .str s => ofWire s
  | _ => none

/-- A `Literal["..."]` discriminator field: accepts exactly the given string. -/
def parseLiteralJ (lit : String) : Json → Option Unit
  | .str s => if s = lit then some () else none
  | _ => none

-- ------------------------------------------------------------------
-- TokenInfo
-- ------------------------------------------------------------------

/-- Source model `TokenInfo`. -/
structure TokenInfo where
  decimals : Option Int
  symbol : Option String
  referencePrice : Option String
  availableBalance : String
  trusted : Bool

/-- Parse a `TokenInfo` from a JSON value. -/
def parseTokenInfo : Json → Option TokenInfo
  | .obj fs =>
      match optField fs "decimals" parseIntJ,
            optField fs "symbol" parseStrJ,
            optField fs "referencePrice" parseStrJ,
            reqField fs "availableBalance" parseTokenAmount,
            reqField fs "trusted" parseBoolJ with
      | some decimals, some symbol, some referencePrice, some availableBalance, some trusted =>
          some (TokenInfo.mk decimals symbol referencePrice availableBalance trusted)
      | _, _, _, _, _ => none
  | _ => none

/-- Serialize a `TokenInfo`. -/
def serializeTokenInfo (t : TokenInfo) : Json :=
  Json.obj
    [("decimals", jsonOfOpt jsonOfInt t.decimals),
     ("symbol", jsonOfOpt Json.str t.symbol),
     ("referencePrice", jsonOfOpt Json.str t.referencePrice),
     ("availableBalance", Json.str t.availableBalance),
     ("trusted", Json.bool t.trusted)]

-- ------------------------------------------------------------------
-- Order and its auxiliary models
-- ------------------------------------------------------------------

/-- Source model `InteractionData`. -/
structure InteractionData where
  target : String
  value : String
  callData : String

/-- Parse an `InteractionData` from a JSON value. -/
def parseInteractionData : Json → Option InteractionData
  | .obj fs =>
      match reqField fs "target" parseAddress,
            reqField fs "value" parseTokenAmount,
            reqField fs "callData" parseStrJ with
      | some target, some value, some callData =>
          some (InteractionData.mk target value callData)
      | _, _, _ => none
  | _ => none

/-- Serialize an `InteractionData`. -/
def serializeInteractionData (d : InteractionData) : Json :=
  Json.obj
    [("target", Json.str d.target),
     ("value", Json.str d.value),
     ("callData", Json.str d.callData)]

/-- Source model `FlashloanHint`. -/
structure FlashloanHint where
  lender : String
  borrower : String
  token : String
  amount : String

/-- Parse a `FlashloanHint` from a JSON value. -/
def parseFlashloanHint : Json → Option FlashloanHint
  | .obj fs =>
      match reqField fs "lender" parseAddress,
            reqField fs "borrower" parseAddress,
            reqField fs "token" parseAddress,
            reqField fs "amount" parseTokenAmount with
      | some lender, some borrower, some token, some amount =>
          some (FlashloanHint.mk lender borrower token amount)
      | _, _, _, _ => none
  | _ => none

/-- Serialize a `FlashloanHint`. -/
def serializeFlashloanHint (h : FlashloanHint) : Json :=
  Json.obj
    [("lender", Json.str h.lender),
     ("borrower", Json.str h.borrower),
     ("token", Json.str h.token),
     ("amount", Json.str h.amount)]

/-- Source model `FeePolicy` (its two factors are Python floats, carried
here as exact rationals). -/
structure FeePolicy where
  kind : String
  maxVolumeFactor : Option Rat
  factor : Option Rat

/-- Parse a `FeePolicy` from a JSON value. -/
def parseFeePolicy : Json → Option FeePolicy
  | .obj fs =>
      match reqField fs "kind" parseStrJ,
            optField fs "maxVolumeFactor" parseFloatJ,
            optField fs "factor" parseFloatJ with
      | some kind, some maxVolumeFactor, some factor =>
          some (FeePolicy.mk kind maxVolumeFactor factor)
      | _, _, _ => none
  | _ => none

/-- Serialize a `FeePolicy`. -/
def serializeFeePolicy (p : FeePolicy) : Json :=
  Json.obj
    [("kind", Json.str p.kind),
     ("maxVolumeFactor", jsonOfOpt Json.num p.maxVolumeFactor),
     ("factor", jsonOfOpt Json.num p.factor)]

/-- Source model `Order`.  The Python field `class_` carries the wire name
"class" through a Pydantic alias. -/
structure Order where
  uid : String
  sellToken : String
  buyToken : String
  sellAmount : String
  fullSellAmount : Option String
  buyAmount : String
  fullBuyAmount : String
  feePolicies : Option (List FeePolicy)
  validTo : Int
  kind : OrderKind
  receiver : Option String
  owner : String
  partiallyFillable : Bool
  preInteractions : List Json
  postInteractions : List InteractionData
  sellTokenSource : SellTokenBalance
  buyTokenDestination : BuyTokenBalance
  class_ : OrderClass
  appData : String
  flashloanHint : Option FlashloanHint
  signingScheme : SigningScheme
  signature : String

/-- Parse an `Order` from a JSON value.  `sellTokenSource` and
`buyTokenDestination` default to erc20 when their key is absent; the class
field is read from the wire name "class". -/
def parseOrder : Json → Option Order
  | .obj fs =>
      match reqField fs "uid" parseStrJ,
            reqField fs "sellToken" parseAddress,
            reqField fs "buyToken" parseAddress,
            reqField fs "sellAmount" parseTokenAmount,
            optField fs "fullSellAmount" parseTokenAmount,
            reqField fs "buyAmount" parseTokenAmount,
            reqField fs "fullBuyAmount" parseTokenAmount,
            optField fs "feePolicies" (parseListWith parseFeePolicy),
            reqField fs "validTo" parseIntJ,
            reqField fs "kind" (parseEnumJ OrderKind.ofWire),
            optField fs "receiver" parseAddress,
            reqField fs "owner" parseAddress,
            reqField fs "partiallyFillable" parseBoolJ,
            reqField fs "preInteractions" parseAnyListJ,
            reqField fs "postInteractions" (parseListWith parseInteractionData),
            defField fs "sellTokenSource" (parseEnumJ SellTokenBalance.ofWire) .erc20,
            defField fs "buyTokenDestination" (parseEnumJ BuyTokenBalance.ofWire) .erc20,
            reqField fs "class" (parseEnumJ OrderClass.ofWire),
            reqField fs "appData" parseStrJ,
            optField fs "flashloanHint" parseFlashloanHint,
            reqField fs "signingScheme" (parseEnumJ SigningScheme.ofWire),
            reqField fs "signature" parseStrJ with
      | some uid, some sellToken, some buyToken, some sellAmount, some fullSellAmount,
        some buyAmount, some fullBuyAmount, some feePolicies, some validTo, some kind,
        some receiver, some owner, some partiallyFillable, some preInteractions,
        some postInteractions, some sellTokenSource, some buyTokenDestination, some class_,
        some appData, some flashloanHint, some signingScheme, some signature =>
          some (Order.mk uid sellToken buyToken sellAmount fullSellAmount buyAmount
            fullBuyAmount feePolicies validTo kind receiver owner partiallyFillable
            preInteractions postInteractions sellTokenSource buyTokenDestination class_
            appData flashloanHint signingScheme signature)
      | _, _, _, _, _, _, _, _, _, _, _, _, _, _, _, _, _, _, _, _, _, _ => none
  | _ => none

/-- The serialized fields of an `Order`; the class field is written back
under the wire name "class" (Pydantic dump by alias). -/
def serializeOrderFields (o : Order) : List (String × Json) :=
  [("uid", Json.str o.uid),
   ("sellToken", Json.str o.sellToken),
   ("buyToken", Json.str o.buyToken),
   ("sellAmount", Json.str o.sellAmount),
   ("fullSellAmount", jsonOfOpt Json.str o.fullSellAmount),
   ("buyAmount", Json.str o.buyAmount),
   ("fullBuyAmount", Json.str o.fullBuyAmount),
   ("feePolicies", jsonOfOpt (fun ps => Json.arr (ps.map serializeFeePolicy)) o.feePolicies),
   ("validTo", jsonOfInt o.validTo),
   ("kind", Json.str o.kind.toWire),
   ("receiver", jsonOfOpt Json.str o.receiver),
   ("owner", Json.str o.owner),
   ("partiallyFillable", Json.bool o.partiallyFillable),
   ("preInteractions", Json.arr o.preInteractions),
   ("postInteractions", Json.arr (o.postInteractions.map serializeInteractionData)),
   ("sellTokenSource", Json.str o.sellTokenSource.toWire),
   ("buyTokenDestination", Json.str o.buyTokenDestination.toWire),
   ("class", Json.str o.class_.toWire),
   ("appData", Json.str o.appData),
   ("flashloanHint", jsonOfOpt serializeFlashloanHint o.flashloanHint),
   ("signingScheme", Json.str o.signingScheme.toWire),
   ("signature", Json.str o.signature)]

/-- Serialize an `Order`. -/
def serializeOrder (o : Order) : Json :=
  Json.obj (serializeOrderFields o)

-- ------------------------------------------------------------------
-- Liquidity (tagged union of five pool kinds)
-- ------------------------------------------------------------------

/-- Source model `TokenReserve`. -/
structure TokenReserve where
  balance : String
  weight : Option String
  scalingFactor : Option String

/-- Parse a `TokenReserve` from a JSON value. -/
def parseTokenReserve : Json → Option TokenReserve
  | .obj fs =>
      match reqField fs "balance" parseTokenAmount,
            optField fs "weight" parseStrJ,
            optField fs "scalingFactor" parseStrJ with
      | some balance, some weight, some scalingFactor =>
          some (TokenReserve.mk balance weight scalingFactor)
      | _, _, _ => none
  | _ => none

/-- Serialize a `TokenReserve`. -/
def serializeTokenReserve (r : TokenReserve) : Json :=
  Json.obj
    [("balance", Json.str r.balance),
     ("weight", jsonOfOpt Json.str r.weight),
     ("scalingFactor", jsonOfOpt Json.str r.scalingFactor)]

/-- Source model `ConstantProductPool` (LiquidityBase fields inlined; its
`kind` field is the constant `Literal["constantProduct"]` discriminator,
carried by the variant tag of `Liquidity`). -/
structure ConstantProductPool where
  id : String
  address : String
  gasEstimate : String
  tokens : List (String × TokenReserve)
  fee : String
  router : String

/-- Parse a `ConstantProductPool`, requiring its kind discriminator. -/
def parseConstantProductPool : Json → Option ConstantProductPool
  | .obj fs =>
      match reqField fs "kind" (parseLiteralJ "constantProduct") with
      | none => none
      | some _ =>
          match reqField fs "id" parseStrJ,
                reqField fs "address" parseAddress,
                reqField fs "gasEstimate" parseStrJ,
                reqField fs "tokens" (parseDictWith parseTokenReserve),
                reqField fs "fee" parseStrJ,
                reqField fs "router" parseAddress with
          | some id, some address, some gasEstimate, some tokens, some fee, some router =>
              some (ConstantProductPool.mk id address gasEstimate tokens fee router)
          | _, _, _, _, _, _ => none
  | _ => none

/-- Serialize a `ConstantProductPool`. -/
def serializeConstantProductPool (p : ConstantProductPool) : Json :=
  Json.obj
    [("kind", Json.str "constantProduct"),
     ("id", Json.str p.id),
     ("address", Json.str p.address),
     ("gasEstimate", Json.str p.gasEstimate),
     ("tokens", jsonOfDict serializeTokenReserve p.tokens),
     ("fee", Json.str p.fee),
     ("router", Json.str p.router)]

/-- Source model `WeightedProductPool` (LiquidityBase fields inlined). -/
structure WeightedProductPool where
  id : String
  address : String
  gasEstimate : String
  tokens : List (String × TokenReserve)
  fee : String
  version : Option String
  balancer_pool_id : String

/-- Parse a `WeightedProductPool`, requiring its kind discriminator. -/
def parseWeightedProductPool : Json → Option WeightedProductPool
  | .obj fs =>
      match reqField fs "kind" (parseLiteralJ "weightedProduct") with
      | none => none
      | some _ =>
          match reqField fs "id" parseStrJ,
                reqField fs "address" parseAddress,
                reqField fs "gasEstimate" parseStrJ,
                reqField fs "tokens" (parseDictWith parseTokenReserve),
                reqField fs "fee" parseStrJ,
                optField fs "version" parseStrJ,
                reqField fs "balancer_pool_id" parseStrJ with
          | some id, some address, some gasEstimate, some tokens, some fee,
            some version, some balancer_pool_id =>
              some (WeightedProductPool.mk id address gasEstimate tokens fee version
                balancer_pool_id)
          | _, _, _, _, _, _, _ => none
  | _ => none

/-- Serialize a `WeightedProductPool`. -/
def serializeWeightedProductPool (p : WeightedProductPool) : Json :=
  Json.obj
    [("kind", Json.str "weightedProduct"),
     ("id", Json.str p.id),
     ("address", Json.str p.address),
     ("gasEstimate", Json.str p.gasEstimate),
     ("tokens", jsonOfDict serializeTokenReserve p.tokens),
     ("fee", Json.str p.fee),
     ("version", jsonOfOpt Json.str p.version),
     ("balancer_pool_id", Json.str p.balancer_pool_id)]

/-- Source model `StablePool` (LiquidityBase fields inlined). -/
structure StablePool where
  id : String
  address : String
  gasEstimate : String
  tokens : List (String × TokenReserve)
  amplificationParameter : String
  fee : String
  balancer_pool_id : String

/-- Parse a `StablePool`, requiring its kind discriminator. -/
def parseStablePool : Json → Option StablePool
  | .obj fs =>
      match reqField fs "kind" (parseLiteralJ "stable") with
      | none => none
      | some _ =>
          match reqField fs "id" parseStrJ,
                reqField fs "address" parseAddress,
                reqField fs "gasEstimate" parseStrJ,
                reqField fs "tokens" (parseDictWith parseTokenReserve),
                reqField fs "amplificationParameter" parseStrJ,
                reqField fs "fee" parseStrJ,
                reqField fs "balancer_pool_id" parseStrJ with
          | some id, some address, some gasEstimate, some tokens,
            some amplificationParameter, some fee, some balancer_pool_id =>
              some (StablePool.mk id address gasEstimate tokens amplificationParameter fee
                balancer_pool_id)
          | _, _, _, _, _, _, _ => none
  | _ => none

/-- Serialize a `StablePool`. -/
def serializeStablePool (p : StablePool) : Json :=
  Json.obj
    [("kind", Json.str "stable"),
     ("id", Json.str p.id),
     ("address", Json.str p.address),
     ("gasEstimate", Json.str p.gasEstimate),
     ("tokens", jsonOfDict serializeTokenReserve p.tokens),
     ("amplificationParameter", Json.str p.amplificationParameter),
     ("fee", Json.str p.fee),
     ("balancer_pool_id", Json.str p.balancer_pool_id)]

/-- Source model `ConcentratedLiquidityPool` (LiquidityBase fields inlined). -/
structure ConcentratedLiquidityPool where
  id : String
  address : String
  gasEstimate : String
  tokens : List String
  sqrtPrice : String
  liquidity : String
  tick : Int
  liquidityNet : List (String × String)
  fee : String
  router : String

/-- Parse a `ConcentratedLiquidityPool`, requiring its kind discriminator. -/
def parseConcentratedLiquidityPool : Json → Option ConcentratedLiquidityPool
  | .obj fs =>
      match reqField fs "kind" (parseLiteralJ "concentratedLiquidity") with
      | none => none
      | some _ =>
          match reqField fs "id" parseStrJ,
                reqField fs "address" parseAddress,
                reqField fs "gasEstimate" parseStrJ,
                reqField fs "tokens" (parseListWith parseAddress),
                reqField fs "sqrtPrice" parseStrJ,
                reqField fs "liquidity" parseStrJ,
                reqField fs "tick" parseIntJ,
                reqField fs "liquidityNet" (parseDictWith parseStrJ),
                reqField fs "fee" parseStrJ,
                reqField fs "router" parseAddress with
          | some id, some address, some gasEstimate, some tokens, some sqrtPrice,
            some liquidity, some tick, some liquidityNet, some fee, some router =>
              some (ConcentratedLiquidityPool.mk id address gasEstimate tokens sqrtPrice
                liquidity tick liquidityNet fee router)
          | _, _, _, _, _, _, _, _, _, _ => none
  | _ => none

/-- Serialize a `ConcentratedLiquidityPool`. -/
def serializeConcentratedLiquidityPool (p : ConcentratedLiquidityPool) : Json :=
  Json.obj
    [("kind", Json.str "concentratedLiquidity"),
     ("id", Json.str p.id),
     ("address", Json.str p.address),
     ("gasEstimate", Json.str p.gasEstimate),
     ("tokens", Json.arr (p.tokens.map Json.str)),
     ("sqrtPrice", Json.str p.sqrtPrice),
     ("liquidity", Json.str p.liquidity),
     ("tick", jsonOfInt p.tick),
     ("liquidityNet", jsonOfDict Json.str p.liquidityNet),
     ("fee", Json.str p.fee),
     ("router", Json.str p.router)]

/-- Source model `ForeignLimitOrder` (LiquidityBase fields inlined). -/
structure ForeignLimitOrder where
  id : String
  address : String
  gasEstimate : String
  makerToken : String
  takerToken : String
  makerAmount : String
  takerAmount : String
  takerTokenFeeAmount : String

/-- Parse a `ForeignLimitOrder`, requiring its kind discriminator. -/
def parseForeignLimitOrder : Json → Option ForeignLimitOrder
  | .obj fs =>
      match reqField fs "kind" (parseLiteralJ "limitOrder") with
      | none => none
      | some _ =>
          match reqField fs "id" parseStrJ,
                reqField fs "address" parseAddress,
                reqField fs "gasEstimate" parseStrJ,
                reqField fs "makerToken" parseAddress,
                reqField fs "takerToken" parseAddress,
                reqField fs "makerAmount" parseTokenAmount,
                reqField fs "takerAmount" parseTokenAmount,
                reqField fs "takerTokenFeeAmount" parseTokenAmount with
          | some id, some address, some gasEstimate, some makerToken, some takerToken,
            some makerAmount, some takerAmount, some takerTokenFeeAmount =>
              some (ForeignLimitOrder.mk id address gasEstimate makerToken takerToken
                makerAmount takerAmount takerTokenFeeAmount)
          | _, _, _, _, _, _, _, _ => none
  | _ => none

/-- Serialize a `ForeignLimitOrder`. -/
def serializeForeignLimitOrder (p : ForeignLimitOrder) : Json :=
  Json.obj
    [("kind", Json.str "limitOrder"),
     ("id", Json.str p.id),
     ("address", Json.str p.address),
     ("gasEstimate", Json.str p.gasEstimate),
     ("makerToken", Json.str p.makerToken),
     ("takerToken", Json.str p.takerToken),
     ("makerAmount", Json.str p.makerAmount),
     ("takerAmount", Json.str p.takerAmount),
     ("takerTokenFeeAmount", Json.str p.takerTokenFeeAmount)]

/-- Source union `Liquidity` over the five pool kinds. -/
inductive Liquidity where
  | constantProduct : ConstantProductPool → Liquidity
  | weightedProduct : WeightedProductPool → Liquidity
  | stable : StablePool → Liquidity
  | concentratedLiquidity : ConcentratedLiquidityPool → Liquidity
  | limitOrder : ForeignLimitOrder → Liquidity

/-- Parse a `Liquidity` entry: the union members are tried in declaration
order; each member requires its own `kind` literal, so at most one applies. -/
def parseLiquidity (j : Json) : Option Liquidity :=
  match parseConstantProductPool j with
  | some p => some (Liquidity.constantProduct p)
  | none =>
    match parseWeightedProductPool j with
    | some p => some (Liquidity.weightedProduct p)
    | none =>
      match parseStablePool j with
      | some p => some (Liquidity.stable p)
      | none =>
        match parseConcentratedLiquidityPool j with
        | some p => some (Liquidity.concentratedLiquidity p)
        | none =>
          match parseForeignLimitOrder j with
          | some p => some (Liquidity.limitOrder p)
          | none => none

/-- Serialize a `Liquidity` entry. -/
def serializeLiquidity : Liquidity → Json
  | .constantProduct p => serializeConstantProductPool p
  | .weightedProduct p => serializeWeightedProductPool p
  | .stable p => serializeStablePool p
  | .concentratedLiquidity p => serializeConcentratedLiquidityPool p
  | .limitOrder p => serializeForeignLimitOrder p

-- ------------------------------------------------------------------
-- Auction (request)
-- ------------------------------------------------------------------

/-- Source model `Auction`. -/
structure Auction where
  id : Option String
  tokens : List (String × TokenInfo)
  orders : List Order
  liquidity : List Liquidity
  effectiveGasPrice : String
  deadline : String
  surplusCapturingJitOrderOwners : List String

/-- Parse an `Auction` from a JSON value. -/
def parseAuction : Json → Option Auction
  | .obj fs =>
      match optField fs "id" parseStrJ,
            reqField fs "tokens" (parseDictWith parseTokenInfo),
            reqField fs "orders" (parseListWith parseOrder),
            reqField fs "liquidity" (parseListWith parseLiquidity),
            reqField fs "effectiveGasPrice" parseTokenAmount,
            reqField fs "deadline" parseStrJ,
            reqField fs "surplusCapturingJitOrderOwners" (parseListWith parseAddress) with
      | some id, some tokens, some orders, some liquidity, some effectiveGasPrice,
        some deadline, some surplusCapturingJitOrderOwners =>
          some (Auction.mk id tokens orders liquidity effectiveGasPrice deadline
            surplusCapturingJitOrderOwners)
      | _, _, _, _, _, _, _ => none
  | _ => none

/-- Serialize an `Auction`. -/
def serializeAuction (a : Auction) : Json :=
  Json.obj
    [("id", jsonOfOpt Json.str a.id),
     ("tokens", jsonOfDict serializeTokenInfo a.tokens),
     ("orders", Json.arr (a.orders.map serializeOrder)),
     ("liquidity", Json.arr (a.liquidity.map serializeLiquidity)),
     ("effectiveGasPrice", Json.str a.effectiveGasPrice),
     ("deadline", Json.str a.deadline),
     ("surplusCapturingJitOrderOwners",
       Json.arr (a.surplusCapturingJitOrderOwners.map Json.str))]

-- ------------------------------------------------------------------
-- Solution (response) and its auxiliary models
-- ------------------------------------------------------------------

/-- Source model `Trade`. -/
structure Trade where
  kind : String
  order : String
  executedAmount : String
  fee : Option String

/-- Parse a `Trade` from a JSON value. -/
def parseTrade : Json → Option Trade
  | .obj fs =>
      match reqField fs "kind" parseStrJ,
            reqField fs "order" parseStrJ,
            reqField fs "executedAmount" parseTokenAmount,
            optField fs "fee" parseTokenAmount with
      | some kind, some order, some executedAmount, some fee =>
          some (Trade.mk kind order executedAmount fee)
      | _, _, _, _ => none
  | _ => none

/-- Serialize a `Trade`. -/
def serializeTrade (t : Trade) : Json :=
  Json.obj
    [("kind", Json.str t.kind),
     ("order", Json.str t.order),
     ("executedAmount", Json.str t.executedAmount),
     ("fee", jsonOfOpt Json.str t.fee)]

/-- Source model `Asset`. -/
structure Asset where
  token : String
  amount : String

/-- Parse an `Asset` from a JSON value. -/
def parseAsset : Json → Option Asset
  | .obj fs =>
      match reqField fs "token" parseAddress,
            reqField fs "amount" parseTokenAmount with
      | some token, some amount => some (Asset.mk token amount)
      | _, _ => none
  | _ => none

/-- Serialize an `Asset`. -/
def serializeAsset (a : Asset) : Json :=
  Json.obj
    [("token", Json.str a.token),
     ("amount", Json.str a.amount)]

/-- Source model `Interaction`. -/
structure Interaction where
  kind : String
  internalize : Option Bool
  id : Option String
  inputToken : Option String
  outputToken : Option String
  inputAmount : Option String
  outputAmount : Option String
  target : Option String
  value : Option String
  callData : Option String
  allowances : Option (List Json)
  inputs : Option (List Asset)
  outputs : Option (List Asset)

/-- Parse an `Interaction` from a JSON value. -/
def parseInteraction : Json → Option Interaction
  | .obj fs =>
      match reqField fs "kind" parseStrJ,
            optField fs "internalize" parseBoolJ,
            optField fs "id" parseStrJ,
            optField fs "inputToken" parseAddress,
            optField fs "outputToken" parseAddress,
            optField fs "inputAmount" parseTokenAmount,
            optField fs "outputAmount" parseTokenAmount,
            optField fs "target" parseAddress,
            optField fs "value" parseTokenAmount,
            optField fs "callData" parseStrJ,
            optField fs "allowances" parseAnyListJ,
            optField fs "inputs" (parseListWith parseAsset),
            optField fs "outputs" (parseListWith parseAsset) with
      | some kind, some internalize, some id, some inputToken, some outputToken,
        some inputAmount, some outputAmount, some target, some value, some callData,
        some allowances, some inputs, some outputs =>
          some (Interaction.mk kind internalize id inputToken outputToken inputAmount
            outputAmount target value callData allowances inputs outputs)
      | _, _, _, _, _, _, _, _, _, _, _, _, _ => none
  | _ => none

/-- Serialize an `Interaction`. -/
def serializeInteraction (i : Interaction) : Json :=
  Json.obj
    [("kind", Json.str i.kind),
     ("internalize", jsonOfOpt Json.bool i.internalize),
     ("id", jsonOfOpt Json.str i.id),
     ("inputToken", jsonOfOpt Json.str i.inputToken),
     ("outputToken", jsonOfOpt Json.str i.outputToken),
     ("inputAmount", jsonOfOpt Json.str i.inputAmount),
     ("outputAmount", jsonOfOpt Json.str i.outputAmount),
     ("target", jsonOfOpt Json.str i.target),
     ("value", jsonOfOpt Json.str i.value),
     ("callData", jsonOfOpt Json.str i.callData),
     ("allowances", jsonOfOpt Json.arr i.allowances),
     ("inputs", jsonOfOpt (fun xs => Json.arr (xs.map serializeAsset)) i.inputs),
     ("outputs", jsonOfOpt (fun xs => Json.arr (xs.map serializeAsset)) i.outputs)]

/-- Source model `Call`. -/
structure Call where
  target : String
  value : String
  callData : List String

/-- Parse a `Call` from a JSON value. -/
def parseCall : Json → Option Call
  | .obj fs =>
      match reqField fs "target" parseAddress,
            reqField fs "value" parseTokenAmount,
            reqField fs "callData" (parseListWith parseStrJ) with
      | some target, some value, some callData => some (Call.mk target value callData)
      | _, _, _ => none
  | _ => none

/-- Serialize a `Call`. -/
def serializeCall (c : Call) : Json :=
  Json.obj
    [("target", Json.str c.target),
     ("value", Json.str c.value),
     ("callData", Json.arr (c.callData.map Json.str))]

/-- Source model `Flashloan`. -/
structure Flashloan where
  lender : String
  borrower : String
  token : String
  amount : String

/-- Parse a `Flashloan` from a JSON value. -/
def parseFlashloan : Json → Option Flashloan
  | .obj fs =>
      match reqField fs "lender" parseAddress,
            reqField fs "borrower" parseAddress,
            reqField fs "token" parseAddress,
            reqField fs "amount" parseTokenAmount with
      | some lender, some borrower, some token, some amount =>
          some (Flashloan.mk lender borrower token amount)
      | _, _, _, _ => none
  | _ => none

/-- Serialize a `Flashloan`. -/
def serializeFlashloan (f : Flashloan) : Json :=
  Json.obj
    [("lender", Json.str f.lender),
     ("borrower", Json.str f.borrower),
     ("token", Json.str f.token),
     ("amount", Json.str f.amount)]

/-- Source model `Solution`. -/
structure Solution where
  id : Int
  prices : List (String × String)
  trades : List Trade
  preInteractions : Option (List Call)
  interactions : List Interaction
  postInteractions : Option (List Call)
  gas : Option Int
  flashloans : Option (List (String × Flashloan))

/-- Parse a `Solution` from a JSON value. -/
def parseSolution : Json → Option Solution
  | .obj fs =>
      match reqField fs "id" parseIntJ,
            reqField fs "prices" (parseDictWith parseTokenAmount),
            reqField fs "trades" (parseListWith parseTrade),
            optField fs "preInteractions" (parseListWith parseCall),
            reqField fs "interactions" (parseListWith parseInteraction),
            optField fs "postInteractions" (parseListWith parseCall),
            optField fs "gas" parseIntJ,
            optField fs "flashloans" (parseDictWith parseFlashloan) with
      | some id, some prices, some trades, some preInteractions, some interactions,
        some postInteractions, some gas, some flashloans =>
          some (Solution.mk id prices trades preInteractions interactions
            postInteractions gas flashloans)
      | _, _, _, _, _, _, _, _ => none
  | _ => none

/-- Serialize a `Solution`. -/
def serializeSolution (s : Solution) : Json :=
  Json.obj
    [("id", jsonOfInt s.id),
     ("prices", jsonOfDict Json.str s.prices),
     ("trades", Json.arr (s.trades.map serializeTrade)),
     ("preInteractions", jsonOfOpt (fun xs => Json.arr (xs.map serializeCall)) s.preInteractions),
     ("interactions", Json.arr (s.interactions.map serializeInteraction)),
     ("postInteractions", jsonOfOpt (fun xs => Json.arr (xs.map serializeCall)) s.postInteractions),
     ("gas", jsonOfOpt jsonOfInt s.gas),
     ("flashloans", jsonOfOpt (jsonOfDict serializeFlashloan) s.flashloans)]

/-- Source model `SolutionResponse`. -/
structure SolutionResponse where
  solutions : List Solution

/-- Parse a `SolutionResponse` from a JSON value. -/
def parseSolutionResponse : Json → Option SolutionResponse
  | .obj fs =>
      match reqField fs "solutions" (parseListWith parseSolution) with
      | some solutions => some (SolutionResponse.mk solutions)
      | _ => none
  | _ => none

/-- Serialize a `SolutionResponse`. -/
def serializeSolutionResponse (r : SolutionResponse) : Json :=
  Json.obj [("solutions", Json.arr (r.solutions.map serializeSolution))]

-- ------------------------------------------------------------------
-- The solve route
-- ------------------------------------------------------------------

/-- The placeholder `Solution` literally constructed by the route body:
`Solution(id=1, prices={}, trades=[], interactions=[])`, every other field
left at its `None` default. -/
def placeholderSolution : Solution :=
  Solution.mk 1 [] [] none [] none none none

/-- The source route `solve`: whatever parsed `Auction` arrives, it returns
`SolutionResponse(solutions=[placeholderSolution])`. -/
def solve (auction : Auction) : SolutionResponse :=
  SolutionResponse.mk [placeholderSolution]

-- ------------------------------------------------------------------
-- Validity: the field constraints the parsers enforce, as predicates
-- on the typed entities (used as hypotheses of round-trip theorems)
-- ------------------------------------------------------------------

/-- A `TokenInfo` whose constrained fields satisfy their patterns. -/
def validTokenInfo (t : TokenInfo) : Bool :=
  tokenAmountValid t.availableBalance

/-- An `InteractionData` whose constrained fields satisfy their patterns. -/
def validInteractionData (d : InteractionData) : Bool :=
  addressValid d.target && tokenAmountValid d.value

/-- A `FlashloanHint` whose constrained fields satisfy their patterns. -/
def validFlashloanHint (h : FlashloanHint) : Bool :=
  addressValid h.lender && addressValid h.borrower &&
  addressValid h.token && tokenAmountValid h.amount

/-- An `Order` whose constrained fields satisfy their patterns. -/
def validOrder (o : Order) : Bool :=
  addressValid o.sellToken && addressValid o.buyToken &&
  tokenAmountValid o.sellAmount && o.fullSellAmount.all tokenAmountValid &&
  tokenAmountValid o.buyAmount && tokenAmountValid o.fullBuyAmount &&
  o.receiver.all addressValid && addressValid o.owner &&
  o.postInteractions.all validInteractionData &&
  o.flashloanHint.all validFlashloanHint

/-- A `TokenReserve` whose constrained fields satisfy their patterns. -/
def validTokenReserve (r : TokenReserve) : Bool :=
  tokenAmountValid r.balance

/-- A `ConstantProductPool` whose constrained fields satisfy their patterns. -/
def validConstantProductPool (p : ConstantProductPool) : Bool :=
  addressValid p.address && p.tokens.all (fun kv => validTokenReserve kv.2) &&
  addressValid p.router

/-- A `WeightedProductPool` whose constrained fields satisfy their patterns. -/
def validWeightedProductPool (p : WeightedProductPool) : Bool :=
  addressValid p.address && p.tokens.all (fun kv => validTokenReserve kv.2)

/-- A `StablePool` whose constrained fields satisfy their patterns. -/
def validStablePool (p : StablePool) : Bool :=
  addressValid p.address && p.tokens.all (fun kv => validTokenReserve kv.2)

/-- A `ConcentratedLiquidityPool` whose constrained fields satisfy their patterns. -/
def validConcentratedLiquidityPool (p : ConcentratedLiquidityPool) : Bool :=
  addressValid p.address && p.tokens.all addressValid && addressValid p.router

/-- A `ForeignLimitOrder` whose constrained fields satisfy their patterns. -/
def validForeignLimitOrder (p : ForeignLimitOrder) : Bool :=
  addressValid p.address && addressValid p.makerToken && addressValid p.takerToken &&
  tokenAmountValid p.makerAmount && tokenAmountValid p.takerAmount &&
  tokenAmountValid p.takerTokenFeeAmount

/-- A `Liquidity` entry whose constrained fields satisfy their patterns. -/
def validLiquidity : Liquidity → Bool
  | .constantProduct p => validConstantProductPool p
  | .weightedProduct p => validWeightedProductPool p
  | .stable p => validStablePool p
  | .concentratedLiquidity p => validConcentratedLiquidityPool p
  | .limitOrder p => validForeignLimitOrder p

/-- An `Auction` whose constrained fields satisfy their patterns. -/
def validAuction (a : Auction) : Bool :=
  a.tokens.all (fun kv => validTokenInfo kv.2) && a.orders.all validOrder &&
  a.liquidity.all validLiquidity && tokenAmountValid a.effectiveGasPrice &&
  a.surplusCapturingJitOrderOwners.all addressValid

/-- A `Trade` whose constrained fields satisfy their patterns. -/
def validTrade (t : Trade) : Bool :=
  tokenAmountValid t.executedAmount && t.fee.all tokenAmountValid

/-- An `Asset` whose constrained fields satisfy their patterns. -/
def validAsset (a : Asset) : Bool :=
  addressValid a.token && tokenAmountValid a.amount

/-- An `Interaction` whose constrained fields satisfy their patterns. -/
def validInteraction (i : Interaction) : Bool :=
  i.inputToken.all addressValid && i.outputToken.all addressValid &&
  i.inputAmount.all tokenAmountValid && i.outputAmount.all tokenAmountValid &&
  i.target.all addressValid && i.value.all tokenAmountValid &&
  i.inputs.all (fun xs => xs.all validAsset) &&
  i.outputs.all (fun xs => xs.all validAsset)

/-- A `Call` whose constrained fields satisfy their patterns. -/
def validCall (c : Call) : Bool :=
  addressValid c.target && tokenAmountValid c.value

/-- A `Flashloan` whose constrained fields satisfy their patterns. -/
def validFlashloan (f : Flashloan) : Bool :=
  addressValid f.lender && addressValid f.borrower &&
  addressValid f.token && tokenAmountValid f.amount

/-- A `Solution` whose constrained fields satisfy their patterns. -/
def validSolution (s : Solution) : Bool :=
  s.prices.all (fun kv => tokenAmountValid kv.2) && s.trades.all validTrade &&
  s.preInteractions.all (fun xs => xs.all validCall) &&
  s.interactions.all validInteraction &&
  s.postInteractions.all (fun xs => xs.all validCall) &&
  s.flashloans.all (fun es => es.all (fun kv => validFlashloan kv.2))

/-- A `SolutionResponse` whose constrained fields satisfy their patterns. -/
def validSolutionResponse (r : SolutionResponse) : Bool :=
  r.solutions.all validSolution

-- ------------------------------------------------------------------
-- Round-trip infrastructure: primitives
-- ------------------------------------------------------------------

/-- Looking up the head key of an object. -/
@[simp]
theorem jlookup_cons_self (k : String) (v : Json) (rest : List (String × Json)) :
    jlookup ((k, v) :: rest) k = some v := by
  simp [jlookup]

/-- Parsing back a serialized string field. -/
@[simp]
theorem parseStrJ_str (s : String) : parseStrJ (Json.str s) = some s := rfl

/-- Parsing back a serialized bool field. -/
@[simp]
theorem parseBoolJ_bool (b : Bool) : parseBoolJ (Json.bool b) = some b := rfl

/-- Parsing back a serialized int field. -/
@[simp]
theorem parseIntJ_int (n : Int) : parseIntJ (jsonOfInt n) = some n := by
  simp [parseIntJ, jsonOfInt]

/-- Parsing back a serialized float field. -/
@[simp]
theorem parseFloatJ_num (q : Rat) : parseFloatJ (Json.num q) = some q := rfl

/-- Parsing back a valid serialized address field. -/
theorem parseAddress_valid {s : String} (h : addressValid s = true) :
    parseAddress (Json.str s) = some s := by
  simp [parseAddress, h]

/-- Parsing back a valid serialized amount field. -/
theorem parseTokenAmount_valid {s : String} (h : tokenAmountValid s = true) :
    parseTokenAmount (Json.str s) = some s := by
  simp [parseTokenAmount, h]

/-- An enum field evaluates its wire-value reader. -/
@[simp]
theorem parseEnumJ_str (f : String → Option α) (s : String) :
    parseEnumJ f (Json.str s) = f s := rfl

/-- A literal discriminator accepts its own value. -/
@[simp]
theorem parseLiteralJ_self (lit : String) :
    parseLiteralJ lit (Json.str lit) = some () := by
  simp [parseLiteralJ]

/-- OrderKind wire round-trip. -/
@[simp]
theorem orderKind_ofWire_toWire (k : OrderKind) : OrderKind.ofWire k.toWire = some k := by
  cases k <;> rfl

/-- OrderClass wire round-trip. -/
@[simp]
theorem orderClass_ofWire_toWire (k : OrderClass) : OrderClass.ofWire k.toWire = some k := by
  cases k <;> rfl

/-- SellTokenBalance wire round-trip. -/
@[simp]
theorem sellTokenBalance_ofWire_toWire (k : SellTokenBalance) :
    SellTokenBalance.ofWire k.toWire = some k := by
  cases k <;> rfl

/-- BuyTokenBalance wire round-trip. -/
@[simp]
theorem buyTokenBalance_ofWire_toWire (k : BuyTokenBalance) :
    BuyTokenBalance.ofWire k.toWire = some k := by
  cases k <;> rfl

/-- SigningScheme wire round-trip. -/
@[simp]
theorem signingScheme_ofWire_toWire (k : SigningScheme) :
    SigningScheme.ofWire k.toWire = some k := by
  cases k <;> rfl

/-- Parsing back a serialized nullable field, given the present case. -/
theorem parseNullable_jsonOfOpt {p : Json → Option α} {f : α → Json} (x : Option α)
    (hn : ∀ a, f a ≠ Json.null) (h : ∀ a, x = some a → p (f a) = some a) :
    parseNullable p (jsonOfOpt f x) = some x := by
  cases x with
  | none => rfl
  | some a =>
      have hp := h a rfl
      have hne := hn a
      show parseNullable p (f a) = some (some a)
      cases hfa : f a <;> rw [hfa] at hp <;> simp_all [parseNullable]

/-- Nullable string fields round-trip. -/
@[simp]
theorem parseNullable_str (x : Option String) :
    parseNullable parseStrJ (jsonOfOpt Json.str x) = some x := by
  apply parseNullable_jsonOfOpt <;> simp

/-- Nullable int fields round-trip. -/
@[simp]
theorem parseNullable_int (x : Option Int) :
    parseNullable parseIntJ (jsonOfOpt jsonOfInt x) = some x := by
  apply parseNullable_jsonOfOpt
  · intro a
    simp [jsonOfInt]
  · intro a ha
    subst ha
    exact parseIntJ_int a

/-- Nullable float fields round-trip. -/
@[simp]
theorem parseNullable_float (x : Option Rat) :
    parseNullable parseFloatJ (jsonOfOpt Json.num x) = some x := by
  apply parseNullable_jsonOfOpt <;> simp

/-- Nullable bool fields round-trip. -/
@[simp]
theorem parseNullable_bool (x : Option Bool) :
    parseNullable parseBoolJ (jsonOfOpt Json.bool x) = some x := by
  apply parseNullable_jsonOfOpt <;> simp

/-- Nullable valid address fields round-trip. -/
theorem parseNullable_address {x : Option String} (h : x.all addressValid = true) :
    parseNullable parseAddress (jsonOfOpt Json.str x) = some x := by
  apply parseNullable_jsonOfOpt
  · intro a
    simp
  · intro a ha
    subst ha
    simp [Option.all] at h
    exact parseAddress_valid h

/-- Nullable valid amount fields round-trip. -/
theorem parseNullable_amount {x : Option String} (h : x.all tokenAmountValid = true) :
    parseNullable parseTokenAmount (jsonOfOpt Json.str x) = some x := by
  apply parseNullable_jsonOfOpt
  · intro a
    simp
  · intro a ha
    subst ha
    simp [Option.all] at h
    exact parseTokenAmount_valid h

/-- Lists serialized elementwise parse back when every element does. -/
theorem parseJsonList_map {p : Json → Option α} {f : α → Json} (xs : List α)
    (h : ∀ x ∈ xs, p (f x) = some x) : parseJsonList p (xs.map f) = some xs := by
  induction xs with
  | nil => rfl
  | cons a t ih =>
      have ha := h a (by simp)
      have ht := ih (fun x hx => h x (by simp [hx]))
      simp [parseJsonList, ha, ht]

/-- Dicts serialized valuewise parse back when every value does. -/
theorem parseJsonDict_map {p : Json → Option α} {f : α → Json} (es : List (String × α))
    (h : ∀ e ∈ es, p (f e.2) = some e.2) : parseJsonDict p (es.map (fun kv => (kv.1, f kv.2))) = some es := by
  induction es with
  | nil => rfl
  | cons a t ih =>
      have ha := h a (by simp)
      have ht := ih (fun x hx => h x (by simp [hx]))
      simp [parseJsonDict, ha, ht]

/-- `parseListWith` round-trip on a serialized array. -/
theorem parseListWith_map {p : Json → Option α} {f : α → Json} (xs : List α)
    (h : ∀ x ∈ xs, p (f x) = some x) :
    parseListWith p (Json.arr (xs.map f)) = some xs := by
  simp [parseListWith, parseJsonList_map xs h]

/-- `parseDictWith` round-trip on a serialized object. -/
theorem parseDictWith_map {p : Json → Option α} {f : α → Json} (es : List (String × α))
    (h : ∀ e ∈ es, p (f e.2) = some e.2) :
    parseDictWith p (jsonOfDict f es) = some es := by
  simp [parseDictWith, jsonOfDict, parseJsonDict_map es h]

/-- `List[Any]` fields round-trip unchanged. -/
@[simp]
theorem parseAnyListJ_arr (js : List Json) : parseAnyListJ (Json.arr js) = some js := rfl

-- ------------------------------------------------------------------
-- Round-trip: entities
-- ------------------------------------------------------------------

/-- A serialized `TokenInfo` parses back to itself. -/
theorem serialize_parse_tokenInfo (t : TokenInfo) (h : validTokenInfo t = true) :
    parseTokenInfo (serializeTokenInfo t) = some t := by
  simp only [validTokenInfo] at h
  simp [parseTokenInfo, serializeTokenInfo, reqField, optField, jlookup,
        parseTokenAmount_valid h]

/-- A serialized `InteractionData` parses back to itself. -/
theorem serialize_parse_interactionData (d : InteractionData)
    (h : validInteractionData d = true) :
    parseInteractionData (serializeInteractionData d) = some d := by
  simp only [validInteractionData, Bool.and_eq_true] at h
  simp [parseInteractionData, serializeInteractionData, reqField, jlookup,
        parseAddress_valid h.1, parseTokenAmount_valid h.2]

/-- A serialized `FlashloanHint` parses back to itself. -/
theorem serialize_parse_flashloanHint (f : FlashloanHint)
    (h : validFlashloanHint f = true) :
    parseFlashloanHint (serializeFlashloanHint f) = some f := by
  simp only [validFlashloanHint, Bool.and_eq_true] at h
  obtain ⟨⟨⟨h1, h2⟩, h3⟩, h4⟩ := h
  simp [parseFlashloanHint, serializeFlashloanHint, reqField, jlookup,
        parseAddress_valid h1, parseAddress_valid h2, parseAddress_valid h3,
        parseTokenAmount_valid h4]

/-- A serialized `FeePolicy` parses back to itself. -/
theorem serialize_parse_feePolicy (p : FeePolicy) :
    parseFeePolicy (serializeFeePolicy p) = some p := by
  simp [parseFeePolicy, serializeFeePolicy, reqField, optField, jlookup]

/-- A serialized `TokenReserve` parses back to itself. -/
theorem serialize_parse_tokenReserve (r : TokenReserve) (h : validTokenReserve r = true) :
    parseTokenReserve (serializeTokenReserve r) = some r := by
  simp only [validTokenReserve] at h
  simp [parseTokenReserve, serializeTokenReserve, reqField, optField, jlookup,
        parseTokenAmount_valid h]

/-- Nullable `FlashloanHint` fields round-trip. -/
theorem parseNullable_flashloanHint {x : Option FlashloanHint}
    (h : x.all validFlashloanHint = true) :
    parseNullable parseFlashloanHint (jsonOfOpt serializeFlashloanHint x) = some x := by
  apply parseNullable_jsonOfOpt
  · intro a
    simp [serializeFlashloanHint]
  · intro a ha
    subst ha
    simp [Option.all] at h
    exact serialize_parse_flashloanHint a h

/-- Nullable `List[FeePolicy]` fields round-trip. -/
theorem parseNullable_feePolicies (x : Option (List FeePolicy)) :
    parseNullable (parseListWith parseFeePolicy)
      (jsonOfOpt (fun ps => Json.arr (ps.map serializeFeePolicy)) x) = some x := by
  apply parseNullable_jsonOfOpt
  · intro a
    simp
  · intro a ha
    subst ha
    exact parseListWith_map a (fun y _ => serialize_parse_feePolicy y)

/-- Nullable `List[Any]` fields round-trip. -/
@[simp]
theorem parseNullable_anyList (x : Option (List Json)) :
    parseNullable parseAnyListJ (jsonOfOpt Json.arr x) = some x := by
  apply parseNullable_jsonOfOpt
  · intro a
    simp
  · intro a ha
    subst ha
    rfl

/-- A serialized `Order` parses back to itself; in particular the class
field, dumped under "class", is read back unchanged. -/
theorem serialize_parse_order (o : Order) (h : validOrder o = true) :
    parseOrder (serializeOrder o) = some o := by
  simp only [validOrder, Bool.and_eq_true] at h
  obtain ⟨⟨⟨⟨⟨⟨⟨⟨⟨h1, h2⟩, h3⟩, h4⟩, h5⟩, h6⟩, h7⟩, h8⟩, h9⟩, h10⟩ := h
  rw [List.all_eq_true] at h9
  have hpost : parseListWith parseInteractionData
      (Json.arr (o.postInteractions.map serializeInteractionData)) = some o.postInteractions :=
    parseListWith_map o.postInteractions
      (fun x hx => serialize_parse_interactionData x (h9 x hx))
  simp [parseOrder, serializeOrder, serializeOrderFields, reqField, optField, defField,
        jlookup, parseAddress_valid h1, parseAddress_valid h2, parseTokenAmount_valid h3,
        parseNullable_amount h4, parseTokenAmount_valid h5, parseTokenAmount_valid h6,
        parseNullable_address h7, parseAddress_valid h8, hpost,
        parseNullable_flashloanHint h10, parseNullable_feePolicies]

/-- A serialized `ConstantProductPool` parses back to itself. -/
theorem serialize_parse_constantProductPool (p : ConstantProductPool)
    (h : validConstantProductPool p = true) :
    parseConstantProductPool (serializeConstantProductPool p) = some p := by
  simp only [validConstantProductPool, Bool.and_eq_true] at h
  obtain ⟨⟨h1, h2⟩, h3⟩ := h
  rw [List.all_eq_true] at h2
  have htok : parseDictWith parseTokenReserve (jsonOfDict serializeTokenReserve p.tokens) =
      some p.tokens :=
    parseDictWith_map p.tokens (fun e he => serialize_parse_tokenReserve e.2 (h2 e he))
  simp [parseConstantProductPool, serializeConstantProductPool, reqField, jlookup,
        parseAddress_valid h1, parseAddress_valid h3, htok]

/-- A serialized `WeightedProductPool` parses back to itself. -/
theorem serialize_parse_weightedProductPool (p : WeightedProductPool)
    (h : validWeightedProductPool p = true) :
    parseWeightedProductPool (serializeWeightedProductPool p) = some p := by
  simp only [validWeightedProductPool, Bool.and_eq_true] at h
  obtain ⟨h1, h2⟩ := h
  rw [List.all_eq_true] at h2
  have htok : parseDictWith parseTokenReserve (jsonOfDict serializeTokenReserve p.tokens) =
      some p.tokens :=
    parseDictWith_map p.tokens (fun e he => serialize_parse_tokenReserve e.2 (h2 e he))
  simp [parseWeightedProductPool, serializeWeightedProductPool, reqField, optField, jlookup,
        parseAddress_valid h1, htok]

/-- A serialized `StablePool` parses back to itself. -/
theorem serialize_parse_stablePool (p : StablePool) (h : validStablePool p = true) :
    parseStablePool (serializeStablePool p) = some p := by
  simp only [validStablePool, Bool.and_eq_true] at h
  obtain ⟨h1, h2⟩ := h
  rw [List.all_eq_true] at h2
  have htok : parseDictWith parseTokenReserve (jsonOfDict serializeTokenReserve p.tokens) =
      some p.tokens :=
    parseDictWith_map p.tokens (fun e he => serialize_parse_tokenReserve e.2 (h2 e he))
  simp [parseStablePool, serializeStablePool, reqField, jlookup,
        parseAddress_valid h1, htok]

/-- A serialized `ConcentratedLiquidityPool` parses back to itself. -/
theorem serialize_parse_concentratedLiquidityPool (p : ConcentratedLiquidityPool)
    (h : validConcentratedLiquidityPool p = true) :
    parseConcentratedLiquidityPool (serializeConcentratedLiquidityPool p) = some p := by
  simp only [validConcentratedLiquidityPool, Bool.and_eq_true] at h
  obtain ⟨⟨h1, h2⟩, h3⟩ := h
  rw [List.all_eq_true] at h2
  have htok : parseListWith parseAddress (Json.arr (p.tokens.map Json.str)) = some p.tokens :=
    parseListWith_map p.tokens (fun x hx => parseAddress_valid (h2 x hx))
  have hnet : parseDictWith parseStrJ (jsonOfDict Json.str p.liquidityNet) =
      some p.liquidityNet :=
    parseDictWith_map p.liquidityNet (fun e _ => rfl)
  simp [parseConcentratedLiquidityPool, serializeConcentratedLiquidityPool, reqField,
        jlookup, parseAddress_valid h1, parseAddress_valid h3, htok, hnet]

/-- A serialized `ForeignLimitOrder` parses back to itself. -/
theorem serialize_parse_foreignLimitOrder (p : ForeignLimitOrder)
    (h : validForeignLimitOrder p = true) :
    parseForeignLimitOrder (serializeForeignLimitOrder p) = some p := by
  simp only [validForeignLimitOrder, Bool.and_eq_true] at h
  obtain ⟨⟨⟨⟨⟨h1, h2⟩, h3⟩, h4⟩, h5⟩, h6⟩ := h
  simp [parseForeignLimitOrder, serializeForeignLimitOrder, reqField, jlookup,
        parseAddress_valid h1, parseAddress_valid h2, parseAddress_valid h3,
        parseTokenAmount_valid h4, parseTokenAmount_valid h5, parseTokenAmount_valid h6]

/-- The constant-product parser rejects a weighted-product serialization. -/
theorem parseCPP_onWeighted (p : WeightedProductPool) :
    parseConstantProductPool (serializeWeightedProductPool p) = none := by
  simp [parseConstantProductPool, serializeWeightedProductPool, reqField, jlookup,
        parseLiteralJ]

/-- The constant-product parser rejects a stable serialization. -/
theorem parseCPP_onStable (p : StablePool) :
    parseConstantProductPool (serializeStablePool p) = none := by
  simp [parseConstantProductPool, serializeStablePool, reqField, jlookup, parseLiteralJ]

/-- The constant-product parser rejects a concentrated-liquidity serialization. -/
theorem parseCPP_onConcentrated (p : ConcentratedLiquidityPool) :
    parseConstantProductPool (serializeConcentratedLiquidityPool p) = none := by
  simp [parseConstantProductPool, serializeConcentratedLiquidityPool, reqField, jlookup,
        parseLiteralJ]

/-- The constant-product parser rejects a limit-order serialization. -/
theorem parseCPP_onLimit (p : ForeignLimitOrder) :
    parseConstantProductPool (serializeForeignLimitOrder p) = none := by
  simp [parseConstantProductPool, serializeForeignLimitOrder, reqField, jlookup,
        parseLiteralJ]

/-- The weighted-product parser rejects a stable serialization. -/
theorem parseWPP_onStable (p : StablePool) :
    parseWeightedProductPool (serializeStablePool p) = none := by
  simp [parseWeightedProductPool, serializeStablePool, reqField, jlookup, parseLiteralJ]

/-- The weighted-product parser rejects a concentrated-liquidity serialization. -/
theorem parseWPP_onConcentrated (p : ConcentratedLiquidityPool) :
    parseWeightedProductPool (serializeConcentratedLiquidityPool p) = none := by
  simp [parseWeightedProductPool, serializeConcentratedLiquidityPool, reqField, jlookup,
        parseLiteralJ]

/-- The weighted-product parser rejects a limit-order serialization. -/
theorem parseWPP_onLimit (p : ForeignLimitOrder) :
    parseWeightedProductPool (serializeForeignLimitOrder p) = none := by
  simp [parseWeightedProductPool, serializeForeignLimitOrder, reqField, jlookup,
        parseLiteralJ]

/-- The stable parser rejects a concentrated-liquidity serialization. -/
theorem parseSP_onConcentrated (p : ConcentratedLiquidityPool) :
    parseStablePool (serializeConcentratedLiquidityPool p) = none := by
  simp [parseStablePool, serializeConcentratedLiquidityPool, reqField, jlookup,
        parseLiteralJ]

/-- The stable parser rejects a limit-order serialization. -/
theorem parseSP_onLimit (p : ForeignLimitOrder) :
    parseStablePool (serializeForeignLimitOrder p) = none := by
  simp [parseStablePool, serializeForeignLimitOrder, reqField, jlookup, parseLiteralJ]

/-- The concentrated-liquidity parser rejects a limit-order serialization. -/
theorem parseCLP_onLimit (p : ForeignLimitOrder) :
    parseConcentratedLiquidityPool (serializeForeignLimitOrder p) = none := by
  simp [parseConcentratedLiquidityPool, serializeForeignLimitOrder, reqField, jlookup,
        parseLiteralJ]

/-- A serialized `Liquidity` entry parses back to itself. -/
theorem serialize_parse_liquidity (l : Liquidity) (h : validLiquidity l = true) :
    parseLiquidity (serializeLiquidity l) = some l := by
  cases l with
  | constantProduct p =>
      simp only [validLiquidity] at h
      simp [parseLiquidity, serializeLiquidity, serialize_parse_constantProductPool p h]
  | weightedProduct p =>
      simp only [validLiquidity] at h
      simp [parseLiquidity, serializeLiquidity, parseCPP_onWeighted,
            serialize_parse_weightedProductPool p h]
  | stable p =>
      simp only [validLiquidity] at h
      simp [parseLiquidity, serializeLiquidity, parseCPP_onStable, parseWPP_onStable,
            serialize_parse_stablePool p h]
  | concentratedLiquidity p =>
      simp only [validLiquidity] at h
      simp [parseLiquidity, serializeLiquidity, parseCPP_onConcentrated,
            parseWPP_onConcentrated, parseSP_onConcentrated,
            serialize_parse_concentratedLiquidityPool p h]
  | limitOrder p =>
      simp only [validLiquidity] at h
      simp [parseLiquidity, serializeLiquidity, parseCPP_onLimit, parseWPP_onLimit,
            parseSP_onLimit, parseCLP_onLimit, serialize_parse_foreignLimitOrder p h]

/-- A serialized `Auction` parses back to itself. -/
theorem serialize_parse_auction (a : Auction) (h : validAuction a = true) :
    parseAuction (serializeAuction a) = some a := by
  simp only [validAuction, Bool.and_eq_true] at h
  obtain ⟨⟨⟨⟨h1, h2⟩, h3⟩, h4⟩, h5⟩ := h
  rw [List.all_eq_true] at h1 h2 h3 h5
  have htok : parseDictWith parseTokenInfo (jsonOfDict serializeTokenInfo a.tokens) =
      some a.tokens :=
    parseDictWith_map a.tokens (fun e he => serialize_parse_tokenInfo e.2 (h1 e he))
  have hord : parseListWith parseOrder (Json.arr (a.orders.map serializeOrder)) =
      some a.orders :=
    parseListWith_map a.orders (fun o ho => serialize_parse_order o (h2 o ho))
  have hliq : parseListWith parseLiquidity (Json.arr (a.liquidity.map serializeLiquidity)) =
      some a.liquidity :=
    parseListWith_map a.liquidity (fun l hl => serialize_parse_liquidity l (h3 l hl))
  have hjit : parseListWith parseAddress
      (Json.arr (a.surplusCapturingJitOrderOwners.map Json.str)) =
      some a.surplusCapturingJitOrderOwners :=
    parseListWith_map a.surplusCapturingJitOrderOwners
      (fun x hx => parseAddress_valid (h5 x hx))
  simp [parseAuction, serializeAuction, reqField, optField, jlookup, htok, hord, hliq,
        hjit, parseTokenAmount_valid h4]

/-- A serialized `Trade` parses back to itself. -/
theorem serialize_parse_trade (t : Trade) (h : validTrade t = true) :
    parseTrade (serializeTrade t) = some t := by
  simp only [validTrade, Bool.and_eq_true] at h
  simp [parseTrade, serializeTrade, reqField, optField, jlookup,
        parseTokenAmount_valid h.1, parseNullable_amount h.2]

/-- A serialized `Asset` parses back to itself. -/
theorem serialize_parse_asset (a : Asset) (h : validAsset a = true) :
    parseAsset (serializeAsset a) = some a := by
  simp only [validAsset, Bool.and_eq_true] at h
  simp [parseAsset, serializeAsset, reqField, jlookup,
        parseAddress_valid h.1, parseTokenAmount_valid h.2]

/-- Nullable `List[Asset]` fields round-trip. -/
theorem parseNullable_assets {x : Option (List Asset)}
    (h : x.all (fun xs => xs.all validAsset) = true) :
    parseNullable (parseListWith parseAsset)
      (jsonOfOpt (fun xs => Json.arr (xs.map serializeAsset)) x) = some x := by
  apply parseNullable_jsonOfOpt
  · intro a
    simp
  · intro a ha
    subst ha
    simp [Option.all, List.all_eq_true] at h
    exact parseListWith_map a (fun y hy => serialize_parse_asset y (h y hy))

/-- A serialized `Interaction` parses back to itself. -/
theorem serialize_parse_interaction (i : Interaction) (h : validInteraction i = true) :
    parseInteraction (serializeInteraction i) = some i := by
  simp only [validInteraction, Bool.and_eq_true] at h
  obtain ⟨⟨⟨⟨⟨⟨⟨h1, h2⟩, h3⟩, h4⟩, h5⟩, h6⟩, h7⟩, h8⟩ := h
  simp [parseInteraction, serializeInteraction, reqField, optField, jlookup,
        parseNullable_address h1, parseNullable_address h2, parseNullable_amount h3,
        parseNullable_amount h4, parseNullable_address h5, parseNullable_amount h6,
        parseNullable_assets h7, parseNullable_assets h8]

/-- A serialized `Call` parses back to itself. -/
theorem serialize_parse_call (c : Call) (h : validCall c = true) :
    parseCall (serializeCall c) = some c := by
  simp only [validCall, Bool.and_eq_true] at h
  have hcd : parseListWith parseStrJ (Json.arr (c.callData.map Json.str)) =
      some c.callData :=
    parseListWith_map c.callData (fun s _ => rfl)
  simp [parseCall, serializeCall, reqField, jlookup,
        parseAddress_valid h.1, parseTokenAmount_valid h.2, hcd]

/-- A serialized `Flashloan` parses back to itself. -/
theorem serialize_parse_flashloan (f : Flashloan) (h : validFlashloan f = true) :
    parseFlashloan (serializeFlashloan f) = some f := by
  simp only [validFlashloan, Bool.and_eq_true] at h
  obtain ⟨⟨⟨h1, h2⟩, h3⟩, h4⟩ := h
  simp [parseFlashloan, serializeFlashloan, reqField, jlookup,
        parseAddress_valid h1, parseAddress_valid h2, parseAddress_valid h3,
        parseTokenAmount_valid h4]

/-- Nullable `List[Call]` fields round-trip. -/
theorem parseNullable_calls {x : Option (List Call)}
    (h : x.all (fun xs => xs.all validCall) = true) :
    parseNullable (parseListWith parseCall)
      (jsonOfOpt (fun xs => Json.arr (xs.map serializeCall)) x) = some x := by
  apply parseNullable_jsonOfOpt
  · intro a
    simp
  · intro a ha
    subst ha
    simp [Option.all, List.all_eq_true] at h
    exact parseListWith_map a (fun y hy => serialize_parse_call y (h y hy))

/-- Nullable `Dict[str, Flashloan]` fields round-trip. -/
theorem parseNullable_flashloans {x : Option (List (String × Flashloan))}
    (h : x.all (fun es => es.all (fun kv => validFlashloan kv.2)) = true) :
    parseNullable (parseDictWith parseFlashloan)
      (jsonOfOpt (jsonOfDict serializeFlashloan) x) = some x := by
  apply parseNullable_jsonOfOpt
  · intro a
    simp [jsonOfDict]
  · intro a ha
    subst ha
    simp [Option.all, List.all_eq_true] at h
    exact parseDictWith_map a (fun e he => serialize_parse_flashloan e.2 (h e.1 e.2 he))

/-- A serialized `Solution` parses back to itself. -/
theorem serialize_parse_solution (s : Solution) (h : validSolution s = true) :
    parseSolution (serializeSolution s) = some s := by
  simp only [validSolution, Bool.and_eq_true] at h
  obtain ⟨⟨⟨⟨⟨h1, h2⟩, h3⟩, h4⟩, h5⟩, h6⟩ := h
  rw [List.all_eq_true] at h1 h2 h4
  have hpr : parseDictWith parseTokenAmount (jsonOfDict Json.str s.prices) = some s.prices :=
    parseDictWith_map s.prices (fun e he => parseTokenAmount_valid (h1 e he))
  have htr : parseListWith parseTrade (Json.arr (s.trades.map serializeTrade)) =
      some s.trades :=
    parseListWith_map s.trades (fun t ht => serialize_parse_trade t (h2 t ht))
  have hint : parseListWith parseInteraction
      (Json.arr (s.interactions.map serializeInteraction)) = some s.interactions :=
    parseListWith_map s.interactions (fun i hi => serialize_parse_interaction i (h4 i hi))
  simp [parseSolution, serializeSolution, reqField, optField, jlookup, hpr, htr, hint,
        parseNullable_calls h3, parseNullable_calls h5, parseNullable_flashloans h6]

/-- A serialized `SolutionResponse` parses back to itself. -/
theorem serialize_parse_solutionResponse (r : SolutionResponse)
    (h : validSolutionResponse r = true) :
    parseSolutionResponse (serializeSolutionResponse r) = some r := by
  simp only [validSolutionResponse, List.all_eq_true] at h
  have hsol : parseListWith parseSolution (Json.arr (r.solutions.map serializeSolution)) =
      some r.solutions :=
    parseListWith_map r.solutions (fun s hs => serialize_parse_solution s (h s hs))
  simp [parseSolutionResponse, serializeSolutionResponse, reqField, jlookup, hsol]

-- ------------------------------------------------------------------
-- Concrete example data
-- ------------------------------------------------------------------

/-- A valid 40-hex-digit address. -/
def addrA : String := "0xaaaaaaaaaaaaaaaaaaaaaaaaaaaaaaaaaaaaaaaa"

/-- A second valid address. -/
def addrB : String := "0xbbbbbbbbbbbbbbbbbbbbbbbbbbbbbbbbbbbbbbbb"

/-- A third valid address. -/
def addrC : String := "0xcccccccccccccccccccccccccccccccccccccccc"

/-- A concrete valid order: sell 1000 of token A for 900 of token B. -/
def exOrder : Order :=
  Order.mk "0xdead" addrA addrB "1000" none "900" "900" none 1700000000 .sell none addrC
    false [] [] .erc20 .erc20 .limit "0x" none .eip712 "0xsig"

/-- An auction containing exactly the one valid order. -/
def exAuction1 : Auction :=
  Auction.mk none [] [exOrder] [] "1000000000" "2024-01-01T00:00:00Z" []

/-- An auction with zero orders. -/
def emptyAuction : Auction :=
  Auction.mk none [] [] [] "1000000000" "2024-01-01T00:00:00Z" []

/-- An auction with two orders sharing the same uid. -/
def dupAuction : Auction :=
  Auction.mk none [] [exOrder, exOrder] [] "1000000000" "2024-01-01T00:00:00Z" []

/-- A self-trade order: sellToken and buyToken are both token A. -/
def selfOrder : Order :=
  Order.mk "0xbeef" addrA addrA "1000" none "900" "900" none 1700000000 .sell none addrC
    false [] [] .erc20 .erc20 .limit "0x" none .eip712 "0xsig"

/-- An auction containing exactly the self-trade order. -/
def selfAuction : Auction :=
  Auction.mk none [] [selfOrder] [] "1000000000" "2024-01-01T00:00:00Z" []

/-- An order with zero amounts (the amount pattern accepts the digit string "0"). -/
def zeroOrder : Order :=
  Order.mk "0x0000" addrA addrB "0" none "0" "900" none 1700000000 .sell none addrC
    false [] [] .erc20 .erc20 .limit "0x" none .eip712 "0xsig"

-- ------------------------------------------------------------------
-- Claims
-- ------------------------------------------------------------------

/-- C1 (counterexample): for the concrete auction `exAuction1`, which contains
the valid order `exOrder` with sellAmount 1000 and buyAmount 900, `solve` does
NOT produce a Solution with prices 1001/900 for the traded tokens and one
fulfillment trade — its one solution has empty prices and no trades at all. -/
theorem c1_counterexample :
    (exOrder ∈ exAuction1.orders ∧ validOrder exOrder = true) ∧
    ¬ ∃ sol, sol ∈ (solve exAuction1).solutions ∧
        (∃ v, (sol.prices.lookup exOrder.sellToken) = some v) ∧
        sol.trades ≠ [] := by
  refine ⟨⟨by simp [exAuction1], by decide⟩, ?_⟩
  rintro ⟨sol, hsol, -, htr⟩
  simp [solve, placeholderSolution] at hsol
  subst hsol
  exact htr rfl

/-- C1 (amended): the route ignores the auction contents entirely — for every
Auction containing at least one valid Order, the response holds exactly one
placeholder Solution with id 1, empty prices, no trades and no interactions,
rather than the naive-builder prices/trade the claim describes. -/
theorem c1_amended_placeholder (a : Auction) (o : Order) (ho : o ∈ a.orders)
    (hv : validOrder o = true) :
    ∃ sol, (solve a).solutions = [sol] ∧ sol.id = 1 ∧ sol.prices = [] ∧
      sol.trades = [] ∧ sol.interactions = [] :=
  ⟨placeholderSolution, rfl, rfl, rfl, rfl, rfl⟩

/-- C1 (witness): the amended statement applied to the concrete auction. -/
theorem c1_witness :
    ∃ sol, (solve exAuction1).solutions = [sol] ∧ sol.id = 1 ∧ sol.prices = [] ∧
      sol.trades = [] ∧ sol.interactions = [] :=
  c1_amended_placeholder exAuction1 exOrder (by simp [exAuction1]) (by decide)

/-- C2 (counterexample): on the concrete auction with zero orders, `solve`
returns a response whose solutions list is NOT empty — it fabricates the
placeholder solution. -/
theorem c2_counterexample :
    emptyAuction.orders = [] ∧ (solve emptyAuction).solutions ≠ [] := by
  exact ⟨rfl, by simp [solve]⟩

/-- C2 (amended): for every Auction with zero orders, `solve` returns a
response containing exactly one placeholder Solution (it fabricates a trivial
solution instead of signalling "no solution" with an empty list). -/
theorem c2_amended_placeholder (a : Auction) (h : a.orders = []) :
    (solve a).solutions = [placeholderSolution] ∧ (solve a).solutions ≠ [] :=
  ⟨rfl, by simp [solve]⟩

/-- C2 (witness): the amended statement applied to the concrete empty auction. -/
theorem c2_witness :
    (solve emptyAuction).solutions = [placeholderSolution] ∧
    (solve emptyAuction).solutions ≠ [] :=
  c2_amended_placeholder emptyAuction rfl

/-- C9: the route output is completely independent of the auction: any two
valid Auctions produce identical responses, and that response is exactly one
Solution with id 1, empty prices, empty trades and empty interactions. -/
theorem c9_solve_constant (a1 a2 : Auction) (h1 : validAuction a1 = true)
    (h2 : validAuction a2 = true) :
    solve a1 = solve a2 ∧
    solve a1 = SolutionResponse.mk [Solution.mk 1 [] [] none [] none none none] :=
  ⟨rfl, rfl⟩

/-- C9 (witness): applied to two concrete distinct valid auctions. -/
theorem c9_witness :
    solve exAuction1 = solve emptyAuction ∧
    solve exAuction1 = SolutionResponse.mk [Solution.mk 1 [] [] none [] none none none] :=
  c9_solve_constant exAuction1 emptyAuction (by decide) (by decide)

/-- C3 (counterexample): the concrete auction `dupAuction` contains two orders
with identical uid, yet the system does not reject it: the serialized auction
parses successfully and `solve` still produces a (nonempty) solution list. -/
theorem c3_counterexample :
    (dupAuction.orders.map Order.uid) = ["0xdead", "0xdead"] ∧
    parseAuction (serializeAuction dupAuction) = some dupAuction ∧
    (solve dupAuction).solutions ≠ [] := by
  refine ⟨rfl, serialize_parse_auction dupAuction (by decide), by simp [solve]⟩

/-- C3 (amended): uid uniqueness is not checked anywhere — for every Auction
containing two Orders with identical uid, `solve` accepts the input and
returns the same single placeholder solution instead of rejecting it. -/
theorem c3_amended_no_uniqueness (a : Auction) (i j : Nat) (hi : i < a.orders.length)
    (hj : j < a.orders.length) (hne : i ≠ j)
    (hdup : (a.orders.get ⟨i, hi⟩).uid = (a.orders.get ⟨j, hj⟩).uid) :
    solve a = SolutionResponse.mk [placeholderSolution] ∧ (solve a).solutions ≠ [] :=
  ⟨rfl, by simp [solve]⟩

/-- C3 (witness): the amended statement applied to the concrete duplicate-uid
auction. -/
theorem c3_witness :
    solve dupAuction = SolutionResponse.mk [placeholderSolution] ∧
    (solve dupAuction).solutions ≠ [] :=
  c3_amended_no_uniqueness dupAuction 0 1 (by decide) (by decide) (by decide) (by decide)

/-- C4 (counterexample): the concrete order `selfOrder` has equal sellToken
and buyToken, yet it is not rejected: its serialization parses back
successfully and `solve` on the auction containing it produces a solution. -/
theorem c4_counterexample :
    selfOrder.sellToken = selfOrder.buyToken ∧
    parseOrder (serializeOrder selfOrder) = some selfOrder ∧
    parseAuction (serializeAuction selfAuction) = some selfAuction ∧
    (solve selfAuction).solutions ≠ [] := by
  refine ⟨rfl, serialize_parse_order selfOrder (by decide),
          serialize_parse_auction selfAuction (by decide), by simp [solve]⟩

/-- C4 (amended): no self-trade check exists — an Order whose sellToken equals
its buyToken (all other fields valid) is accepted by the parser, and `solve`
on any Auction containing it returns the placeholder solution instead of
rejecting the input. -/
theorem c4_amended_no_selftrade_check (a : Auction) (o : Order) (ho : o ∈ a.orders)
    (heq : o.sellToken = o.buyToken) (hv : validOrder o = true) :
    parseOrder (serializeOrder o) = some o ∧
    solve a = SolutionResponse.mk [placeholderSolution] :=
  ⟨serialize_parse_order o hv, rfl⟩

/-- C4 (witness): the amended statement applied to the concrete self-trade
auction. -/
theorem c4_witness :
    parseOrder (serializeOrder selfOrder) = some selfOrder ∧
    solve selfAuction = SolutionResponse.mk [placeholderSolution] :=
  c4_amended_no_selftrade_check selfAuction selfOrder (by simp [selfAuction]) rfl (by decide)

-- ------------------------------------------------------------------
-- C5: format enforcement
-- ------------------------------------------------------------------

/-- The address pattern characterized: `0x` followed by exactly 40 hex chars. -/
theorem addressValid_iff (s : String) :
    addressValid s = true ↔
    ∃ t : String, s = "0x" ++ t ∧ t.length = 40 ∧ t.data.all isHexDigitChar = true := by
  constructor
  · intro h
    obtain ⟨data⟩ := s
    cases data with
    | nil => simp [addressValid] at h
    | cons c0 tl =>
        cases tl with
        | nil => simp [addressValid] at h
        | cons c1 rest =>
            simp only [addressValid, Bool.and_eq_true, beq_iff_eq] at h
            obtain ⟨⟨⟨h0, h1⟩, hlen⟩, hall⟩ := h
            subst h0
            subst h1
            refine ⟨String.mk rest, ?_, ?_, hall⟩
            · rfl
            · simpa [String.length] using hlen
  · rintro ⟨t, hst, hlen, hall⟩
    rw [hst]
    obtain ⟨tl⟩ := t
    show addressValid (String.mk ('0' :: 'x' :: tl)) = true
    simp only [addressValid, Bool.and_eq_true, beq_iff_eq]
    refine ⟨⟨⟨by simp, by simp⟩, ?_⟩, hall⟩
    simpa [String.length] using hlen

/-- The amount pattern characterized: non-empty and all decimal digits. -/
theorem tokenAmountValid_iff (s : String) :
    tokenAmountValid s = true ↔ s ≠ "" ∧ s.data.all Char.isDigit = true := by
  obtain ⟨data⟩ := s
  constructor
  · intro h
    simp only [tokenAmountValid, Bool.and_eq_true, Bool.not_eq_true'] at h
    obtain ⟨h1, h2⟩ := h
    refine ⟨?_, h2⟩
    intro hc
    have hd := congrArg String.data hc
    simp at hd
    subst hd
    simp [List.isEmpty] at h1
  · rintro ⟨h1, h2⟩
    simp only [tokenAmountValid, Bool.and_eq_true, Bool.not_eq_true']
    refine ⟨?_, h2⟩
    cases data with
    | nil => exact absurd rfl h1
    | cons c cs => rfl

/-- Whatever JSON value an address field accepts, the accepted string matches
the address pattern. -/
theorem parseAddress_sound {j : Json} {s : String} (h : parseAddress j = some s) :
    addressValid s = true := by
  cases j with
  | str s0 =>
      simp only [parseAddress] at h
      split at h
      · rename_i hc
        injection h with h0
        subst h0
        exact hc
      · exact Option.noConfusion h
  | num q => exact Option.noConfusion h
  | bool b => exact Option.noConfusion h
  | null => exact Option.noConfusion h
  | arr l => exact Option.noConfusion h
  | obj fs => exact Option.noConfusion h

/-- Whatever JSON value an amount field accepts, the accepted string matches
the amount pattern. -/
theorem parseTokenAmount_sound {j : Json} {s : String} (h : parseTokenAmount j = some s) :
    tokenAmountValid s = true := by
  cases j with
  | str s0 =>
      simp only [parseTokenAmount] at h
      split at h
      · rename_i hc
        injection h with h0
        subst h0
        exact hc
      · exact Option.noConfusion h
  | num q => exact Option.noConfusion h
  | bool b => exact Option.noConfusion h
  | null => exact Option.noConfusion h
  | arr l => exact Option.noConfusion h
  | obj fs => exact Option.noConfusion h

/-- C5: the parser accepts an address field iff it is `0x` plus exactly 40
hex characters, and an amount field iff it is a non-empty digit string of any
length; in particular "123abc" and a Z-filled 0x-string are rejected at parse
time. -/
theorem c5_format_enforcement :
    (∀ s : String, addressValid s = true ↔
      ∃ t : String, s = "0x" ++ t ∧ t.length = 40 ∧ t.data.all isHexDigitChar = true) ∧
    (∀ s : String, tokenAmountValid s = true ↔ s ≠ "" ∧ s.data.all Char.isDigit = true) ∧
    (∀ (j : Json) (s : String), parseAddress j = some s → addressValid s = true) ∧
    (∀ (j : Json) (s : String), parseTokenAmount j = some s → tokenAmountValid s = true) ∧
    tokenAmountValid "123abc" = false ∧
    addressValid "0xZZZZZZZZZZZZZZZZZZZZZZZZZZZZZZZZZZZZZZZZ" = false ∧
    parseTokenAmount (Json.str "123abc") = none ∧
    parseAddress (Json.str "0xZZZZZZZZZZZZZZZZZZZZZZZZZZZZZZZZZZZZZZZZ") = none ∧
    addressValid addrA = true ∧
    tokenAmountValid "123456789012345678901234567890123456789012345678901234567890" = true :=
  ⟨addressValid_iff, tokenAmountValid_iff, fun _ _ h => parseAddress_sound h,
   fun _ _ h => parseTokenAmount_sound h, by decide, by decide, by decide, by decide,
   by decide, by decide⟩

/-- C5 (witness): the parse-soundness components applied at concrete inputs. -/
theorem c5_witness :
    addressValid addrA = true ∧ tokenAmountValid "1000" = true :=
  ⟨c5_format_enforcement.2.2.1 (Json.str addrA) addrA (by decide),
   c5_format_enforcement.2.2.2.1 (Json.str "1000") "1000" (by decide)⟩

-- ------------------------------------------------------------------
-- C8: parsed orders have pattern-valid (not necessarily positive) amounts
-- ------------------------------------------------------------------

/-- A required amount field only ever yields pattern-valid strings. -/
theorem reqField_amount_sound {fs : List (String × Json)} {key s : String}
    (h : reqField fs key parseTokenAmount = some s) : tokenAmountValid s = true := by
  unfold reqField at h
  cases hv : jlookup fs key with
  | none =>
      rw [hv] at h
      exact Option.noConfusion h
  | some v =>
      rw [hv] at h
      exact parseTokenAmount_sound h

/-- C8 (counterexample): an order whose sellAmount and buyAmount are "0" IS
accepted by the parser — the amount pattern admits the digit string "0". -/
theorem c8_counterexample :
    parseOrder (serializeOrder zeroOrder) = some zeroOrder ∧
    zeroOrder.sellAmount = "0" ∧ zeroOrder.buyAmount = "0" :=
  ⟨serialize_parse_order zeroOrder (by decide), rfl, rfl⟩

/-- C8 (amended): every Order accepted by the parser has sellAmount and
buyAmount matching the amount pattern (non-empty decimal digits, hence a
nonnegative integer) — but positivity is not enforced, zero is accepted. -/
theorem c8_amended_amounts_digits (j : Json) (o : Order) (h : parseOrder j = some o) :
    tokenAmountValid o.sellAmount = true ∧ tokenAmountValid o.buyAmount = true := by
  cases j with
  | obj fs =>
      simp only [parseOrder] at h
      split at h
      · injection h with h0
        subst h0
        exact ⟨reqField_amount_sound (by assumption), reqField_amount_sound (by assumption)⟩
      · exact Option.noConfusion h
  | str s => exact Option.noConfusion h
  | num q => exact Option.noConfusion h
  | bool b => exact Option.noConfusion h
  | null => exact Option.noConfusion h
  | arr l => exact Option.noConfusion h

/-- C8 (witness): the amended statement applied to the concrete zero-amount
order, whose amounts "0" are pattern-valid. -/
theorem c8_witness :
    tokenAmountValid zeroOrder.sellAmount = true ∧
    tokenAmountValid zeroOrder.buyAmount = true :=
  c8_amended_amounts_digits (serializeOrder zeroOrder) zeroOrder
    (serialize_parse_order zeroOrder (by decide))

-- ------------------------------------------------------------------
-- C10: the two balance-venue enums and their erc20 defaults
-- ------------------------------------------------------------------

/-- A field with a default yields the default when the key is absent. -/
theorem defField_absent {fs : List (String × Json)} {key : String} {p : Json → Option α}
    {d x : α} (habs : jlookup fs key = none) (h : defField fs key p d = some x) : x = d := by
  unfold defField at h
  rw [habs] at h
  injection h with h0
  exact h0.symm

/-- The sell-side venue reader accepts only its three wire values. -/
theorem sellTokenBalance_ofWire_domain (t : String) (b : SellTokenBalance)
    (h : SellTokenBalance.ofWire t = some b) :
    t = "erc20" ∨ t = "internal" ∨ t = "external" := by
  unfold SellTokenBalance.ofWire at h
  split at h
  · exact Or.inl rfl
  · exact Or.inr (Or.inl rfl)
  · exact Or.inr (Or.inr rfl)
  · exact Option.noConfusion h

/-- The buy-side venue reader accepts only its two wire values. -/
theorem buyTokenBalance_ofWire_domain (t : String) (b : BuyTokenBalance)
    (h : BuyTokenBalance.ofWire t = some b) : t = "erc20" ∨ t = "internal" := by
  unfold BuyTokenBalance.ofWire at h
  split at h
  · exact Or.inl rfl
  · exact Or.inr rfl
  · exact Option.noConfusion h

/-- C10: sellTokenSource accepts exactly erc20, internal and external, while
buyTokenDestination accepts only erc20 and internal (external is rejected);
orders parsed without either key get the erc20 default for it. -/
theorem c10_venue_asymmetry (fs gs : List (String × Json)) (o p : Order)
    (ho : parseOrder (Json.obj fs) = some o)
    (hos : jlookup fs "sellTokenSource" = none)
    (hp : parseOrder (Json.obj gs) = some p)
    (hpd : jlookup gs "buyTokenDestination" = none) :
    SellTokenBalance.ofWire "erc20" = some SellTokenBalance.erc20 ∧
    SellTokenBalance.ofWire "internal" = some SellTokenBalance.internal ∧
    SellTokenBalance.ofWire "external" = some SellTokenBalance.external ∧
    (∀ t b, SellTokenBalance.ofWire t = some b →
      t = "erc20" ∨ t = "internal" ∨ t = "external") ∧
    BuyTokenBalance.ofWire "erc20" = some BuyTokenBalance.erc20 ∧
    BuyTokenBalance.ofWire "internal" = some BuyTokenBalance.internal ∧
    BuyTokenBalance.ofWire "external" = none ∧
    (∀ t b, BuyTokenBalance.ofWire t = some b → t = "erc20" ∨ t = "internal") ∧
    o.sellTokenSource = SellTokenBalance.erc20 ∧
    p.buyTokenDestination = BuyTokenBalance.erc20 := by
  refine ⟨rfl, rfl, rfl, sellTokenBalance_ofWire_domain, rfl, rfl, rfl,
          buyTokenBalance_ofWire_domain, ?_, ?_⟩
  · simp only [parseOrder] at ho
    split at ho
    · injection ho with h0
      subst h0
      exact defField_absent hos (by assumption)
    · exact Option.noConfusion ho
  · simp only [parseOrder] at hp
    split at hp
    · injection hp with h0
      subst h0
      exact defField_absent hpd (by assumption)
    · exact Option.noConfusion hp

/-- The fields of a concrete order object carrying neither venue key. -/
def noVenueFields : List (String × Json) :=
    [("uid", Json.str "0xnovenue"),
     ("sellToken", Json.str addrA),
     ("buyToken", Json.str addrB),
     ("sellAmount", Json.str "1000"),
     ("buyAmount", Json.str "900"),
     ("fullBuyAmount", Json.str "900"),
     ("validTo", Json.num (1700000000 : Int)),
     ("kind", Json.str "sell"),
     ("owner", Json.str addrC),
     ("partiallyFillable", Json.bool false),
     ("preInteractions", Json.arr []),
     ("postInteractions", Json.arr []),
     ("class", Json.str "limit"),
     ("appData", Json.str "0x"),
     ("signingScheme", Json.str "eip712"),
     ("signature", Json.str "0xsig")]

/-- The order `noVenueFields` parses to. -/
def noVenueOrder : Order :=
  Order.mk "0xnovenue" addrA addrB "1000" none "900" "900" none 1700000000 .sell none addrC
    false [] [] .erc20 .erc20 .limit "0x" none .eip712 "0xsig"

/-- C10 (witness): applied to the concrete object missing both venue keys,
whose parse yields the erc20 defaults. -/
theorem c10_witness :
    BuyTokenBalance.ofWire "external" = none ∧
    noVenueOrder.sellTokenSource = SellTokenBalance.erc20 ∧
    noVenueOrder.buyTokenDestination = BuyTokenBalance.erc20 := by
  have h := c10_venue_asymmetry noVenueFields noVenueFields noVenueOrder noVenueOrder
    rfl rfl rfl rfl
  exact ⟨h.2.2.2.2.2.2.1, h.2.2.2.2.2.2.2.2⟩

-- ------------------------------------------------------------------
-- C6: the liquidity kind discriminator is closed over five variants
-- ------------------------------------------------------------------

/-- A required literal discriminator field pins the exact wire string. -/
theorem reqField_literal {fs : List (String × Json)} {key lit : String} {u : Unit}
    (h : reqField fs key (parseLiteralJ lit) = some u) :
    jlookup fs key = some (Json.str lit) := by
  unfold reqField at h
  cases hv : jlookup fs key with
  | none =>
      rw [hv] at h
      exact Option.noConfusion h
  | some v =>
      rw [hv] at h
      cases v with
      | str s =>
          simp only [parseLiteralJ] at h
          split at h
          · rename_i hs
            subst hs
            rfl
          · exact Option.noConfusion h
      | num q => exact Option.noConfusion h
      | bool b => exact Option.noConfusion h
      | null => exact Option.noConfusion h
      | arr l => exact Option.noConfusion h
      | obj gs => exact Option.noConfusion h

/-- A successful constant-product parse pins the kind field. -/
theorem parseCPP_kind {j : Json} {p : ConstantProductPool}
    (h : parseConstantProductPool j = some p) :
    ∃ fs, j = Json.obj fs ∧ jlookup fs "kind" = some (Json.str "constantProduct") := by
  cases j with
  | obj fs =>
      refine ⟨fs, rfl, ?_⟩
      simp only [parseConstantProductPool] at h
      cases hk : reqField fs "kind" (parseLiteralJ "constantProduct") with
      | none =>
          rw [hk] at h
          exact Option.noConfusion h
      | some u => exact reqField_literal hk
  | str s => exact Option.noConfusion h
  | num q => exact Option.noConfusion h
  | bool b => exact Option.noConfusion h
  | null => exact Option.noConfusion h
  | arr l => exact Option.noConfusion h

/-- A successful weighted-product parse pins the kind field. -/
theorem parseWPP_kind {j : Json} {p : WeightedProductPool}
    (h : parseWeightedProductPool j = some p) :
    ∃ fs, j = Json.obj fs ∧ jlookup fs "kind" = some (Json.str "weightedProduct") := by
  cases j with
  | obj fs =>
      refine ⟨fs, rfl, ?_⟩
      simp only [parseWeightedProductPool] at h
      cases hk : reqField fs "kind" (parseLiteralJ "weightedProduct") with
      | none =>
          rw [hk] at h
          exact Option.noConfusion h
      | some u => exact reqField_literal hk
  | str s => exact Option.noConfusion h
  | num q => exact Option.noConfusion h
  | bool b => exact Option.noConfusion h
  | null => exact Option.noConfusion h
  | arr l => exact Option.noConfusion h

/-- A successful stable parse pins the kind field. -/
theorem parseSP_kind {j : Json} {p : StablePool} (h : parseStablePool j = some p) :
    ∃ fs, j = Json.obj fs ∧ jlookup fs "kind" = some (Json.str "stable") := by
  cases j with
  | obj fs =>
      refine ⟨fs, rfl, ?_⟩
      simp only [parseStablePool] at h
      cases hk : reqField fs "kind" (parseLiteralJ "stable") with
      | none =>
          rw [hk] at h
          exact Option.noConfusion h
      | some u => exact reqField_literal hk
  | str s => exact Option.noConfusion h
  | num q => exact Option.noConfusion h
  | bool b => exact Option.noConfusion h
  | null => exact Option.noConfusion h
  | arr l => exact Option.noConfusion h

/-- A successful concentrated-liquidity parse pins the kind field. -/
theorem parseCLP_kind {j : Json} {p : ConcentratedLiquidityPool}
    (h : parseConcentratedLiquidityPool j = some p) :
    ∃ fs, j = Json.obj fs ∧ jlookup fs "kind" = some (Json.str "concentratedLiquidity") := by
  cases j with
  | obj fs =>
      refine ⟨fs, rfl, ?_⟩
      simp only [parseConcentratedLiquidityPool] at h
      cases hk : reqField fs "kind" (parseLiteralJ "concentratedLiquidity") with
      | none =>
          rw [hk] at h
          exact Option.noConfusion h
      | some u => exact reqField_literal hk
  | str s => exact Option.noConfusion h
  | num q => exact Option.noConfusion h
  | bool b => exact Option.noConfusion h
  | null => exact Option.noConfusion h
  | arr l => exact Option.noConfusion h

/-- A successful foreign-limit-order parse pins the kind field. -/
theorem parseFLO_kind {j : Json} {p : ForeignLimitOrder}
    (h : parseForeignLimitOrder j = some p) :
    ∃ fs, j = Json.obj fs ∧ jlookup fs "kind" = some (Json.str "limitOrder") := by
  cases j with
  | obj fs =>
      refine ⟨fs, rfl, ?_⟩
      simp only [parseForeignLimitOrder] at h
      cases hk : reqField fs "kind" (parseLiteralJ "limitOrder") with
      | none =>
          rw [hk] at h
          exact Option.noConfusion h
      | some u => exact reqField_literal hk
  | str s => exact Option.noConfusion h
  | num q => exact Option.noConfusion h
  | bool b => exact Option.noConfusion h
  | null => exact Option.noConfusion h
  | arr l => exact Option.noConfusion h

/-- C6: a Liquidity entry parses successfully only when its kind
discriminator is one of the five known variants — any other kind value makes
every member of the union fail, hence a hard parse error. -/
theorem c6_liquidity_kind_closed (j : Json) (l : Liquidity) (h : parseLiquidity j = some l) :
    ∃ fs k, j = Json.obj fs ∧ jlookup fs "kind" = some (Json.str k) ∧
      (k = "constantProduct" ∨ k = "weightedProduct" ∨ k = "stable" ∨
       k = "concentratedLiquidity" ∨ k = "limitOrder") := by
  unfold parseLiquidity at h
  cases h1 : parseConstantProductPool j with
  | some p =>
      obtain ⟨fs, hj, hk⟩ := parseCPP_kind h1
      exact ⟨fs, "constantProduct", hj, hk, Or.inl rfl⟩
  | none =>
      rw [h1] at h
      cases h2 : parseWeightedProductPool j with
      | some p =>
          obtain ⟨fs, hj, hk⟩ := parseWPP_kind h2
          exact ⟨fs, "weightedProduct", hj, hk, Or.inr (Or.inl rfl)⟩
      | none =>
          rw [h2] at h
          cases h3 : parseStablePool j with
          | some p =>
              obtain ⟨fs, hj, hk⟩ := parseSP_kind h3
              exact ⟨fs, "stable", hj, hk, Or.inr (Or.inr (Or.inl rfl))⟩
          | none =>
              rw [h3] at h
              cases h4 : parseConcentratedLiquidityPool j with
              | some p =>
                  obtain ⟨fs, hj, hk⟩ := parseCLP_kind h4
                  exact ⟨fs, "concentratedLiquidity", hj, hk,
                         Or.inr (Or.inr (Or.inr (Or.inl rfl)))⟩
              | none =>
                  rw [h4] at h
                  cases h5 : parseForeignLimitOrder j with
                  | some p =>
                      obtain ⟨fs, hj, hk⟩ := parseFLO_kind h5
                      exact ⟨fs, "limitOrder", hj, hk,
                             Or.inr (Or.inr (Or.inr (Or.inr rfl)))⟩
                  | none =>
                      rw [h5] at h
                      exact Option.noConfusion h

/-- A concrete constant-product pool. -/
def exPool : ConstantProductPool :=
  ConstantProductPool.mk "cpp1" addrA "100000" [(addrB, TokenReserve.mk "1000" none none)]
    "0.003" addrC

/-- C6 (witness): applied to the serialization of the concrete pool, which
parses successfully and indeed carries one of the five kinds. -/
theorem c6_witness :
    ∃ fs k, serializeLiquidity (Liquidity.constantProduct exPool) = Json.obj fs ∧
      jlookup fs "kind" = some (Json.str k) ∧
      (k = "constantProduct" ∨ k = "weightedProduct" ∨ k = "stable" ∨
       k = "concentratedLiquidity" ∨ k = "limitOrder") :=
  c6_liquidity_kind_closed _ (Liquidity.constantProduct exPool)
    (serialize_parse_liquidity (Liquidity.constantProduct exPool) (by decide))

-- ------------------------------------------------------------------
-- C7: parse/reserialize round-trip and the "class" alias
-- ------------------------------------------------------------------

/-- C7: for every valid Auction and every valid Solution, serializing and
parsing back is the identity; the Order field stored as `class_` travels
under the wire name "class" (and never under "class_"). -/
theorem c7_roundtrip (a : Auction) (s : Solution) (o : Order)
    (ha : validAuction a = true) (hs : validSolution s = true)
    (hv : validOrder o = true) :
    parseAuction (serializeAuction a) = some a ∧
    parseSolution (serializeSolution s) = some s ∧
    parseOrder (serializeOrder o) = some o ∧
    jlookup (serializeOrderFields o) "class" = some (Json.str o.class_.toWire) ∧
    jlookup (serializeOrderFields o) "class_" = none := by
  refine ⟨serialize_parse_auction a ha, serialize_parse_solution s hs,
          serialize_parse_order o hv, ?_, ?_⟩
  · simp [serializeOrderFields, jlookup]
  · simp [serializeOrderFields, jlookup]

/-- A concrete auction carrying token metadata, an order and liquidity. -/
def exAuction2 : Auction :=
  Auction.mk (some "auction1")
    [(addrA, TokenInfo.mk (some 18) (some "TKA") none "5000" true)]
    [exOrder]
    [Liquidity.constantProduct exPool]
    "1000000000" "2024-01-01T00:00:00Z" [addrC]

/-- A concrete solution with prices, one trade and a gas estimate. -/
def exSolution : Solution :=
  Solution.mk 7 [(addrA, "1001"), (addrB, "900")]
    [Trade.mk "fulfillment" "0xdead" "1000" (some "0")]
    none [] none (some 21000) none

/-- C7 (witness): the round-trip applied to the concrete auction, solution
and order. -/
theorem c7_witness :
    parseAuction (serializeAuction exAuction2) = some exAuction2 ∧
    parseSolution (serializeSolution exSolution) = some exSolution ∧
    parseOrder (serializeOrder exOrder) = some exOrder ∧
    jlookup (serializeOrderFields exOrder) "class" = some (Json.str exOrder.class_.toWire) ∧
    jlookup (serializeOrderFields exOrder) "class_" = none :=
  c7_roundtrip exAuction2 exSolution exOrder (by decide) (by decide) (by decide)
